import Mathlib

/-!
Verification of the RelationalFutureCaptioningModel repository core.

This file gives a shallow embedding, in Lean 4, of the parts of the
repository that the specification's claims are about:

* the Masking Engine (`make_shifted_mask`, `make_pad_shifted_mask`,
  `make_video_only_mask` in `src/mart/model.py`);
* the Decoding Engine (`Translator` in `src/models/translator.py`:
  `mask_tokens_after_eos`, `prepare_video_only_inputs`, the greedy
  decoding loop and its KNN datastore writes);
* the model constructor's configuration flow (`create_mart_model` and
  `RecursiveTransformer.__init__` in `src/mart/model.py`);
* the Step Orchestrator (`RecursiveTransformer.forward_step`) and the
  Recurrent Driver (`RecursiveTransformer.forward`), including the
  dropout layers' use of the (global, mutable) random stream.

Tensors are embedded as functions into `ℚ` (exact arithmetic).  The
transcendental primitives that torch provides (exp, log, sin, cos, erf,
sqrt) are abstracted as fields of a `Prim` structure: every theorem is
stated for an arbitrary interpretation of those primitives, so nothing
proved depends on their values.  The torch global random stream consumed
by `nn.Dropout` in training mode is modelled as a `Nat → Bool` stream
together with a running position that is part of the mutable model
state, mirroring `torch.random`.
-/

set_option linter.unusedVariables false

/-! ## Part 1: the Masking Engine (src/mart/model.py, lines 286-339) -/

/-- Structural (unpadded) shifted mask, from `make_shifted_mask`
(src/mart/model.py lines 286-317).  The output entry at query `q`, key
`k` does not depend on the batch row (the `input_mask` argument of the
Python function is used only for its shape there).  `decoder = true`
replaces the whole structural mask by ones. -/
def make_shifted_mask (max_v_len max_t_len memory_len : ℕ) (decoder : Bool)
    (q k : ℕ) : ℚ :=
  if decoder then 1
  else if k < memory_len + max_v_len then 1
  else if max_v_len ≤ q ∧ memory_len + max_v_len ≤ k
          ∧ k - (memory_len + max_v_len) ≤ q - max_v_len then 1
  else 0

/-- Pad-shifted mask, from `make_pad_shifted_mask` (src/mart/model.py
lines 320-333).  Note that the Python function passes `decoder=False` to
`make_shifted_mask` regardless of its own `decoder` argument; the
transcription reproduces that literally. -/
def make_pad_shifted_mask (input_mask : ℕ → ℕ → ℚ)
    (max_v_len max_t_len memory_len : ℕ) (decoder : Bool)
    (n q k : ℕ) : ℚ :=
  make_shifted_mask max_v_len max_t_len memory_len false q k * input_mask n k

/-- Video-only mask, from `make_video_only_mask` (src/mart/model.py
lines 336-339): zeroes every position from `max_v_len` on. -/
def make_video_only_mask (input_mask : ℕ → ℕ → ℚ) (max_v_len : ℕ)
    (n k : ℕ) : ℚ :=
  if max_v_len ≤ k then 0 else input_mask n k

/-- All-ones validity mask, used as a concrete input in evaluations. -/
def onesMask : ℕ → ℕ → ℚ := fun _ _ => 1

/-- C1: in non-decoder mode, for any validity mask `v` of row length
`L = Vl + Tl`, the pad-shifted mask `M` satisfies, for all `q k < L`:
video keys are gated only by padding (`M q k = v k` for `k < Vl`), text
keys are invisible to video queries, and over the text region the mask
is causal intersected with padding. -/
theorem pad_shifted_mask_structure (v : ℕ → ℕ → ℚ) (Vl Tl n q k : ℕ)
    (hq : q < Vl + Tl) (hk : k < Vl + Tl) :
    (k < Vl → make_pad_shifted_mask v Vl Tl 0 false n q k = v n k)
    ∧ (q < Vl → Vl ≤ k → make_pad_shifted_mask v Vl Tl 0 false n q k = 0)
    ∧ (Vl ≤ q → Vl ≤ k →
        make_pad_shifted_mask v Vl Tl 0 false n q k
          = if k ≤ q then v n k else 0) := by
  unfold make_pad_shifted_mask make_shifted_mask
  refine ⟨?_, ?_, ?_⟩
  · intro hkv
    rw [if_neg (by decide), if_pos (show k < 0 + Vl by omega), one_mul]
  · intro hqv hkv
    rw [if_neg (by decide), if_neg (show ¬ k < 0 + Vl by omega),
      if_neg (show ¬ (Vl ≤ q ∧ 0 + Vl ≤ k ∧ k - (0 + Vl) ≤ q - Vl) by omega),
      zero_mul]
  · intro hqv hkv
    by_cases hle : k ≤ q
    · rw [if_neg (by decide), if_neg (show ¬ k < 0 + Vl by omega),
        if_pos (show Vl ≤ q ∧ 0 + Vl ≤ k ∧ k - (0 + Vl) ≤ q - Vl by omega),
        if_pos hle, one_mul]
    · rw [if_neg (by decide), if_neg (show ¬ k < 0 + Vl by omega),
        if_neg (show ¬ (Vl ≤ q ∧ 0 + Vl ≤ k ∧ k - (0 + Vl) ≤ q - Vl) by omega),
        if_neg hle, zero_mul]

/-- Witness for C1 at a concrete instance (`Vl = 2`, `Tl = 3`). -/
theorem pad_shifted_mask_structure_witness :
    (1 < 2 + 3 ∧ 4 < 2 + 3)
    ∧ ((4 < 2 → make_pad_shifted_mask onesMask 2 3 0 false 0 1 4 = onesMask 0 4)
      ∧ (1 < 2 → 2 ≤ 4 → make_pad_shifted_mask onesMask 2 3 0 false 0 1 4 = 0)
      ∧ (2 ≤ 1 → 2 ≤ 4 →
          make_pad_shifted_mask onesMask 2 3 0 false 0 1 4
            = if 4 ≤ 1 then onesMask 0 4 else 0)) :=
  ⟨by decide, pad_shifted_mask_structure onesMask 2 3 0 1 4 (by decide) (by decide)⟩

/-- C4 counterexample: with `Vl = 1`, `Tl = 1`, the all-ones validity
mask, query `q = 0` (video region) and key `k = 1` (text region),
`make_pad_shifted_mask` invoked with the decoder flag set returns `0`,
not `v k = 1` as the claim states — even though `make_shifted_mask`
itself, invoked with the decoder flag, does return `1` there.  The
`decoder` argument of `make_pad_shifted_mask` is dropped (the inner call
hardcodes `decoder=False`). -/
theorem pad_shifted_mask_decoder_flag_dropped :
    make_pad_shifted_mask onesMask 1 1 0 true 0 0 1 = 0
    ∧ onesMask 0 1 = 1
    ∧ make_shifted_mask 1 1 0 true 0 1 = 1 := by
  refine ⟨?_, rfl, by decide⟩
  simp [make_pad_shifted_mask, make_shifted_mask, onesMask]

/-- C4 amended: `make_pad_shifted_mask` ignores its `decoder` argument —
for every input it coincides with the non-decoder pad-shifted mask —
while the all-ones structural override is implemented only inside
`make_shifted_mask` (whose decoder mode does return 1 everywhere). -/
theorem pad_shifted_mask_decoder_eq_nondecoder (v : ℕ → ℕ → ℚ)
    (Vl Tl mem n q k : ℕ) :
    make_pad_shifted_mask v Vl Tl mem true n q k
      = make_pad_shifted_mask v Vl Tl mem false n q k
    ∧ make_shifted_mask Vl Tl mem true q k = 1 := by
  exact ⟨rfl, by simp [make_shifted_mask]⟩

/-! ## Part 2: the Decoding Engine (src/models/translator.py) -/

/-- Modelled from the spec: the special-token ids of the dataset
collaborator (`datasets.bila.BilaDataset`, used by
`src/models/translator.py`) are not under `src/`; the spec's token
vocabulary as instantiated by the in-repo sibling dataset
(`src/mart/recursive_caption_dataset.py` lines 77-84) fixes
`[PAD] = 0`. -/
def bilaPAD : ℕ := 0

/-- Modelled from the spec: `[BOS] = 4` (see `bilaPAD`). -/
def bilaBOS : ℕ := 4

/-- Modelled from the spec: `[EOS] = 5` (see `bilaPAD`). -/
def bilaEOS : ℕ := 5

/-- Modelled from the spec: `[UNK] = 6` (see `bilaPAD`). -/
def bilaUNK : ℕ := 6

/-- Python slice assignment `row[k:] = pad`: keep the first `k` entries,
overwrite the rest with `pad`. -/
def sliceSet {α : Type} (k : ℕ) (pad : α) (row : List α) : List α :=
  row.take k ++ List.replicate (row.length - k) pad

theorem sliceSet_nil {α : Type} (k : ℕ) (pad : α) : sliceSet k pad [] = [] := by
  simp [sliceSet]

theorem sliceSet_cons {α : Type} (k : ℕ) (pad a : α) (row : List α) :
    sliceSet (k + 1) pad (a :: row) = a :: sliceSet k pad row := by
  simp [sliceSet]

theorem sliceSet_zero {α : Type} (pad : α) (row : List α) :
    sliceSet 0 pad row = List.replicate row.length pad := by
  simp [sliceSet]

theorem sliceSet_length {α : Type} (k : ℕ) (pad : α) (row : List α) :
    (sliceSet k pad row).length = row.length := by
  simp [sliceSet]
  omega

theorem sliceSet_getD_lt {α : Type} (pad d : α) :
    ∀ (row : List α) (k i : ℕ), i < k →
      (sliceSet k pad row).getD i d = row.getD i d
  | [], k, i, _ => by rw [sliceSet_nil]
  | a :: row, k, i, h => by
    cases k with
    | zero => omega
    | succ k =>
      rw [sliceSet_cons]
      cases i with
      | zero => rfl
      | succ i =>
        simpa using sliceSet_getD_lt pad d row k i (by omega)

theorem sliceSet_getD_ge {α : Type} (pad d : α) :
    ∀ (row : List α) (k i : ℕ), k ≤ i → i < row.length →
      (sliceSet k pad row).getD i d = pad
  | [], k, i, _, hi => by simp at hi
  | a :: row, k, i, hk, hi => by
    cases k with
    | zero =>
      rw [sliceSet_zero]
      have : i < (List.replicate (a :: row).length pad).length := by
        simpa using hi
      rw [List.getD_eq_getElem _ _ this, List.getElem_replicate]
    | succ k =>
      rw [sliceSet_cons]
      cases i with
      | zero => omega
      | succ i =>
        simpa using sliceSet_getD_ge pad d row k i (by omega) (by simpa using hi)

/-- Per-row token-id update of `mask_tokens_after_eos`
(src/models/translator.py lines 66-72): if the row contains an EOS,
`input_ids[row_idx, cur_eos_idx + 1 :] = pad_token_id`. -/
def eosRowIds (eos_token_id pad_token_id : ℕ) (row : List ℕ) : List ℕ :=
  match row.findIdx? (fun t => t == eos_token_id) with
  | none => row
  | some e => sliceSet (e + 1) pad_token_id row

/-- Per-row mask update of `mask_tokens_after_eos`
(src/models/translator.py line 73): positions after the row's first EOS
get mask bit 0. -/
def eosRowMask (eos_token_id : ℕ) (row : List ℕ) (mrow : List ℚ) : List ℚ :=
  match row.findIdx? (fun t => t == eos_token_id) with
  | none => mrow
  | some e => sliceSet (e + 1) 0 mrow

/-- Transcription of `mask_tokens_after_eos`
(src/models/translator.py lines 59-74).  The Python loop iterates over
the rows of `input_ids` and mutates the corresponding rows of both
`input_ids` and `input_masks`; extra mask rows beyond the id rows are
untouched (a missing mask row would raise in Python and is modelled by
stopping). -/
def mask_tokens_after_eos (eos_token_id pad_token_id : ℕ) :
    List (List ℕ) → List (List ℚ) → List (List ℕ) × List (List ℚ)
  | [], input_masks => ([], input_masks)
  | row :: ids, [] => (row :: ids, [])
  | row :: ids, mrow :: masks =>
    let rest := mask_tokens_after_eos eos_token_id pad_token_id ids masks
    (eosRowIds eos_token_id pad_token_id row :: rest.1,
      eosRowMask eos_token_id row mrow :: rest.2)

theorem mask_tokens_after_eos_getD (eos pad : ℕ) :
    ∀ (ids : List (List ℕ)) (masks : List (List ℚ)) (r : ℕ),
      r < ids.length → masks.length = ids.length →
      (mask_tokens_after_eos eos pad ids masks).1.getD r []
          = eosRowIds eos pad (ids.getD r [])
        ∧ (mask_tokens_after_eos eos pad ids masks).2.getD r []
          = eosRowMask eos (ids.getD r []) (masks.getD r [])
  | [], masks, r, hr, _ => by simp at hr
  | row :: ids, [], r, hr, hlen => by simp at hlen
  | row :: ids, mrow :: masks, 0, hr, hlen => by
    simp [mask_tokens_after_eos]
  | row :: ids, mrow :: masks, r + 1, hr, hlen => by
    have := mask_tokens_after_eos_getD eos pad ids masks r
      (by simpa using hr) (by simpa using hlen)
    simpa [mask_tokens_after_eos] using this

/-- C5: for every batch of token-id rows and mask rows, row `r` of the
output of `mask_tokens_after_eos` is: unchanged at all positions at or
before the row's first EOS; token id `pad` and mask bit `0` at every
position strictly after the first EOS; and entirely unchanged when the
row contains no EOS. -/
theorem mask_tokens_after_eos_spec (eos pad : ℕ) (ids : List (List ℕ))
    (masks : List (List ℚ)) (r : ℕ) (hr : r < ids.length)
    (hlen : masks.length = ids.length) :
    ((mask_tokens_after_eos eos pad ids masks).1.getD r []
        = eosRowIds eos pad (ids.getD r [])
      ∧ (mask_tokens_after_eos eos pad ids masks).2.getD r []
        = eosRowMask eos (ids.getD r []) (masks.getD r []))
    ∧ (∀ e, (ids.getD r []).findIdx? (fun t => t == eos) = some e →
        (∀ i, i ≤ e →
          (eosRowIds eos pad (ids.getD r [])).getD i 0
              = (ids.getD r []).getD i 0
          ∧ (eosRowMask eos (ids.getD r []) (masks.getD r [])).getD i 0
              = (masks.getD r []).getD i 0)
        ∧ (∀ i, e + 1 ≤ i → i < (ids.getD r []).length →
            (eosRowIds eos pad (ids.getD r [])).getD i 0 = pad)
        ∧ (∀ i, e + 1 ≤ i → i < (masks.getD r []).length →
            (eosRowMask eos (ids.getD r []) (masks.getD r [])).getD i 0 = 0))
    ∧ ((ids.getD r []).findIdx? (fun t => t == eos) = none →
        eosRowIds eos pad (ids.getD r []) = ids.getD r []
        ∧ eosRowMask eos (ids.getD r []) (masks.getD r []) = masks.getD r [])
    ∧ ((ids.getD r []).findIdx? (fun t => t == eos) = none ↔
        eos ∉ ids.getD r []) := by
  refine ⟨mask_tokens_after_eos_getD eos pad ids masks r hr hlen, ?_, ?_, ?_⟩
  · intro e he
    refine ⟨?_, ?_, ?_⟩
    · intro i hi
      constructor
      · rw [eosRowIds, he]
        exact sliceSet_getD_lt pad 0 _ (e + 1) i (by omega)
      · rw [eosRowMask, he]
        exact sliceSet_getD_lt 0 0 _ (e + 1) i (by omega)
    · intro i hi hilen
      rw [eosRowIds, he]
      exact sliceSet_getD_ge pad 0 _ (e + 1) i (by omega) hilen
    · intro i hi hilen
      rw [eosRowMask, he]
      exact sliceSet_getD_ge 0 0 _ (e + 1) i (by omega) hilen
  · intro he
    rw [eosRowIds, eosRowMask, he]
    exact ⟨rfl, rfl⟩
  · rw [List.findIdx?_eq_none_iff]
    constructor
    · intro h hmem
      have := h eos hmem
      simp at this
    · intro h x hx
      simp only [beq_eq_false_iff_ne, ne_eq]
      intro hxe
      exact h (hxe ▸ hx)

/-- Witness for C5 on a concrete batch: rows `[4, 5, 9, 5]` (EOS = 5 at
index 1) and `[7, 8]` (no EOS). -/
theorem mask_tokens_after_eos_spec_witness :
    (0 < [[4, 5, 9, 5], [7, 8]].length
      ∧ [[1, 1, 1, 1], [1, 1]].length = [[4, 5, 9, 5], [7, 8]].length)
    ∧ (((mask_tokens_after_eos 5 0 [[4, 5, 9, 5], [7, 8]]
          [[1, 1, 1, 1], [1, 1]]).1.getD 0 []
        = eosRowIds 5 0 ([[4, 5, 9, 5], [7, 8]].getD 0 [])
      ∧ (mask_tokens_after_eos 5 0 [[4, 5, 9, 5], [7, 8]]
          [[1, 1, 1, 1], [1, 1]]).2.getD 0 []
        = eosRowMask 5 ([[4, 5, 9, 5], [7, 8]].getD 0 [])
            ([[1, 1, 1, 1], [1, 1]].getD 0 []))
    ∧ (∀ e, ([[4, 5, 9, 5], [7, 8]].getD 0 []).findIdx?
          (fun t => t == 5) = some e →
        (∀ i, i ≤ e →
          (eosRowIds 5 0 ([[4, 5, 9, 5], [7, 8]].getD 0 [])).getD i 0
              = ([[4, 5, 9, 5], [7, 8]].getD 0 []).getD i 0
          ∧ (eosRowMask 5 ([[4, 5, 9, 5], [7, 8]].getD 0 [])
              ([[1, 1, 1, 1], [1, 1]].getD 0 [])).getD i 0
              = ([[1, 1, 1, 1], [1, 1]].getD 0 []).getD i 0)
        ∧ (∀ i, e + 1 ≤ i → i < ([[4, 5, 9, 5], [7, 8]].getD 0 []).length →
            (eosRowIds 5 0 ([[4, 5, 9, 5], [7, 8]].getD 0 [])).getD i 0 = 0)
        ∧ (∀ i, e + 1 ≤ i →
            i < ([[1, 1, 1, 1], [1, 1]].getD 0 []).length →
            (eosRowMask 5 ([[4, 5, 9, 5], [7, 8]].getD 0 [])
              ([[1, 1, 1, 1], [1, 1]].getD 0 [])).getD i 0 = 0))
    ∧ (([[4, 5, 9, 5], [7, 8]].getD 0 []).findIdx? (fun t => t == 5) = none →
        eosRowIds 5 0 ([[4, 5, 9, 5], [7, 8]].getD 0 [])
            = [[4, 5, 9, 5], [7, 8]].getD 0 []
        ∧ eosRowMask 5 ([[4, 5, 9, 5], [7, 8]].getD 0 [])
            ([[1, 1, 1, 1], [1, 1]].getD 0 [])
            = [[1, 1, 1, 1], [1, 1]].getD 0 [])
    ∧ (([[4, 5, 9, 5], [7, 8]].getD 0 []).findIdx? (fun t => t == 5) = none ↔
        (5 : ℕ) ∉ [[4, 5, 9, 5], [7, 8]].getD 0 [])) :=
  ⟨by decide,
    mask_tokens_after_eos_spec 5 0 [[4, 5, 9, 5], [7, 8]]
      [[1, 1, 1, 1], [1, 1]] 0 (by decide) (by decide)⟩

/-- Oracle for the decoding model's `forward_step`.  Modelled from the
spec: the model object handed to the Translator (`models/model.py`) is
not under `src/`; per the spec's Step Orchestrator contract it produces
vocabulary logits of shape `(batch, L, vocab)` and, when datastore
construction is on, per-position decoder feature vectors.  The greedy
loop only ever varies `input_ids` and `input_masks`, so the remaining
`forward_step` arguments (img/txt features, token types, bboxes) are
absorbed into the oracle functions. -/
structure TransModel where
  vocab : ℕ
  scores : List (List ℕ) → List (List ℚ) → ℕ → ℕ → ℕ → ℚ
  knnFeats : List (List ℕ) → List (List ℚ) → ℕ → ℕ → ℕ → ℚ

/-- KNN datastore state owned by a `Translator` instance: the running
write offset `dstore_idx` and the two memory-mapped arrays, modelled as
partial maps from row offset to row (a row is `none` until written). -/
structure TransState where
  dstore_idx : ℕ
  dstore_keys : ℕ → Option (ℕ → ℚ)
  dstore_vals : ℕ → Option (ℕ → ℚ)

/-- State of `Translator.__init__` (src/models/translator.py lines
82-94): `self.dstore_idx = 0`, with the datastore arrays not yet
written. -/
def translatorInit : TransState :=
  ⟨0, fun _ => none, fun _ => none⟩

/-- Column assignment `input_ids[:, dec_idx] = next_symbols`
(src/models/translator.py line 144). -/
def writeColIds (col : ℕ) (vals : List ℕ) (ids : List (List ℕ)) :
    List (List ℕ) :=
  List.zipWith (fun row v => row.set col v) ids vals

/-- Column assignment `input_masks[:, dec_idx] = 1`
(src/models/translator.py line 145). -/
def writeColMasks (col : ℕ) (masks : List (List ℚ)) : List (List ℚ) :=
  masks.map (fun row => row.set col 1)

/-- UNK suppression `pred_scores[:, :, unk_idx] = -1e10`
(src/models/translator.py line 173). -/
def suppressUnk (scores : ℕ → ℕ → ℕ → ℚ) (unk_idx : ℕ) : ℕ → ℕ → ℕ → ℚ :=
  fun n p t => if t = unk_idx then (-1e10 : ℚ) else scores n p t

/-- Arg-max over the vocabulary dimension, `pred_scores[:, dec_idx]
.max(1)[1]` (src/models/translator.py line 185); ties resolve to the
first maximal index, as `torch.max` does. -/
def argmaxScore (f : ℕ → ℚ) (vocab : ℕ) : ℕ :=
  (List.range vocab).foldl (fun best j => if f best < f j then j else best) 0

/-- State carried by one iteration of the greedy decoding loop. -/
structure GreedyState where
  ids : List (List ℕ)
  masks : List (List ℚ)
  next_symbols : List ℕ
  ts : TransState

/-- One iteration of the loop in `greedy_decoding_step`
(src/models/translator.py lines 143-186): write `next_symbols` into
column `dec_idx`, mark it valid, run the model, force the UNK logit to
`-1e10`, optionally append the decoder features and suppressed logits at
`dec_idx` to the datastore at offsets `[dstore_idx, dstore_idx + bsz)`
advancing `dstore_idx` by `bsz`, then arg-max at `dec_idx`. -/
def greedy_step_body (model : TransModel) (unk_idx : ℕ)
    (make_knn_dstore : Bool) (st : GreedyState) (dec_idx : ℕ) : GreedyState :=
  let ids := writeColIds dec_idx st.next_symbols st.ids
  let masks := writeColMasks dec_idx st.masks
  let pred_scores := suppressUnk (model.scores ids masks) unk_idx
  let bsz := ids.length
  let ts : TransState :=
    if make_knn_dstore then
      { dstore_idx := st.ts.dstore_idx + bsz
        dstore_keys := fun o =>
          if st.ts.dstore_idx ≤ o ∧ o < st.ts.dstore_idx + bsz then
            some (fun d => model.knnFeats ids masks (o - st.ts.dstore_idx) dec_idx d)
          else st.ts.dstore_keys o
        dstore_vals := fun o =>
          if st.ts.dstore_idx ≤ o ∧ o < st.ts.dstore_idx + bsz then
            some (fun t => pred_scores (o - st.ts.dstore_idx) dec_idx t)
          else st.ts.dstore_vals o }
    else st.ts
  let next_words := (List.range bsz).map
    (fun n => argmaxScore (fun t => pred_scores n dec_idx t) model.vocab)
  { ids := ids, masks := masks, next_symbols := next_words, ts := ts }

/-- Result of one `greedy_decoding_step` call: the per-segment decoded
sequence `input_ids[:, max_v_len:]` plus the mutated tensors and
datastore state. -/
structure GreedyResult where
  dec_seq : List (List ℕ)
  ids : List (List ℕ)
  masks : List (List ℚ)
  ts : TransState

/-- The `for dec_idx in range(max_v_len, max_v_len + max_t_len)` loop of
`greedy_decoding_step`, as a fold of `greedy_step_body` over the first
`m` decode offsets. -/
def greedyFold (model : TransModel) (unk_idx : ℕ) (make_knn_dstore : Bool)
    (max_v_len : ℕ) (st0 : GreedyState) (m : ℕ) : GreedyState :=
  (List.range m).foldl
    (fun st i => greedy_step_body model unk_idx make_knn_dstore st (max_v_len + i))
    st0

/-- Transcription of `greedy_decoding_step` (src/models/translator.py
lines 114-190): start from `next_symbols = [BOS] * bsz`, iterate the
loop body for `dec_idx in range(max_v_len, max_v_len + max_t_len)`,
apply `mask_tokens_after_eos`, and return `input_ids[:, max_v_len:]`. -/
def greedy_decoding_step (model : TransModel) (max_v_len max_t_len : ℕ)
    (start_idx unk_idx : ℕ) (make_knn_dstore : Bool)
    (input_ids : List (List ℕ)) (input_masks : List (List ℚ))
    (ts : TransState) : GreedyResult :=
  let bsz := input_ids.length
  let final := greedyFold model unk_idx make_knn_dstore max_v_len
    ⟨input_ids, input_masks, List.replicate bsz start_idx, ts⟩ max_t_len
  let masked := mask_tokens_after_eos bilaEOS bilaPAD final.ids final.masks
  ⟨masked.1.map (fun row => row.drop max_v_len), masked.1, masked.2, final.ts⟩

/-- Per-segment part of `Translator.prepare_video_only_inputs`
(src/models/translator.py lines 264-273): positions whose segment id is
1 get token id PAD and mask bit 0. -/
def prepareSegment (ids : List (List ℕ)) (masks : List (List ℚ))
    (segs : List (List ℕ)) : List (List ℕ) × List (List ℚ) :=
  (List.zipWith
      (fun irow srow =>
        List.zipWith (fun t s => if s = 1 then bilaPAD else t) irow srow)
      ids segs,
    List.zipWith
      (fun mrow srow =>
        List.zipWith (fun m s => if s = 1 then (0 : ℚ) else m) mrow srow)
      masks segs)

/-- List branch of `Translator.prepare_video_only_inputs`
(src/models/translator.py lines 264-273), applied per segment. -/
def prepare_video_only_inputs (ids_list : List (List (List ℕ)))
    (masks_list : List (List (List ℚ))) (segs_list : List (List (List ℕ))) :
    List (List (List ℕ)) × List (List (List ℚ)) :=
  ((List.zip ids_list (List.zip masks_list segs_list)).map
      (fun x => (prepareSegment x.1 x.2.1 x.2.2).1),
    (List.zip ids_list (List.zip masks_list segs_list)).map
      (fun x => (prepareSegment x.1 x.2.1 x.2.2).2))

/-- The decoding precondition assertion of `translate_batch_greedy`
(src/models/translator.py lines 195-198).  Note the Python loop
iterates over `input_ids_list` (the token ids, not the masks) and sums
the columns strictly after `self.cfg.max_v_len`. -/
def checkTextMasked (self_max_v_len : ℕ)
    (input_ids_list : List (List (List ℕ))) : Except String Unit :=
  if input_ids_list.all
      (fun seg => (seg.map (fun row => (row.drop (self_max_v_len + 1)).sum)).sum == 0)
  then Except.ok ()
  else Except.error "Initially, all text tokens should be masked"

/-- Transcription of `Translator.translate_batch_greedy`
(src/models/translator.py lines 96-221): prepare video-only inputs,
run the assertion, then decode the segments in order, threading the
datastore state (never resetting it).  `models` holds, per segment, the
`forward_step` oracle specialized to that segment's auxiliary features;
`self_max_v_len` is `self.cfg.max_v_len` (the Translator's config),
`max_v_len`/`max_t_len` are `rt_model.cfg`'s values. -/
def translate_batch_greedy (models : List TransModel)
    (self_max_v_len max_v_len max_t_len : ℕ) (make_knn_dstore : Bool)
    (input_ids_list : List (List (List ℕ)))
    (input_masks_list : List (List (List ℚ)))
    (token_type_ids_list : List (List (List ℕ)))
    (ts : TransState) : Except String (List (List (List ℕ)) × TransState) :=
  let prepared := prepare_video_only_inputs input_ids_list input_masks_list
    token_type_ids_list
  match checkTextMasked self_max_v_len prepared.1 with
  | Except.error e => Except.error e
  | Except.ok _ =>
    let fin := (List.zip models (List.zip prepared.1 prepared.2)).foldl
      (fun (acc : List (List (List ℕ)) × TransState) seg =>
        let r := greedy_decoding_step seg.1 max_v_len max_t_len bilaBOS bilaUNK
          make_knn_dstore seg.2.1 seg.2.2 acc.2
        (acc.1 ++ [r.dec_seq], r.ts))
      ([], ts)
    Except.ok fin

/-- Constant score oracle used for concrete evaluations. -/
def constModel : TransModel :=
  ⟨2, fun _ _ _ _ _ => 0, fun _ _ _ _ _ => 0⟩

theorem getD_set_self {α : Type} (d x : α) (row : List α) (i : ℕ)
    (h : i < row.length) : (row.set i x).getD i d = x := by
  rw [List.getD_eq_getElem _ _ (by simpa using h), List.getElem_set_self]

theorem getD_set_ne {α : Type} (d x : α) (row : List α) (i j : ℕ)
    (h : i ≠ j) : (row.set i x).getD j d = row.getD j d := by
  rw [List.getD_eq_getElem?_getD, List.getD_eq_getElem?_getD,
    List.getElem?_set_ne h]

theorem getD_zipWith {α β γ : Type} (f : α → β → γ) (d1 : α) (d2 : β)
    (d3 : γ) (l1 : List α) (l2 : List β) (i : ℕ) (h1 : i < l1.length)
    (h2 : i < l2.length) :
    (List.zipWith f l1 l2).getD i d3 = f (l1.getD i d1) (l2.getD i d2) := by
  have hz : i < (List.zipWith f l1 l2).length := by
    rw [List.length_zipWith]
    omega
  rw [List.getD_eq_getElem _ _ hz, List.getD_eq_getElem _ _ h1,
    List.getD_eq_getElem _ _ h2, List.getElem_zipWith]

theorem getD_map_of_lt {α β : Type} (f : α → β) (d1 : α) (d2 : β)
    (l : List α) (i : ℕ) (h : i < l.length) :
    (l.map f).getD i d2 = f (l.getD i d1) := by
  rw [List.getD_eq_getElem _ _ (by simpa using h),
    List.getD_eq_getElem _ _ h, List.getElem_map]

theorem getD_drop_of_lt {α : Type} (d : α) (l : List α) (n i : ℕ)
    (h : n + i < l.length) :
    (l.drop n).getD i d = l.getD (n + i) d := by
  have hd : i < (l.drop n).length := by
    rw [List.length_drop]
    omega
  rw [List.getD_eq_getElem _ _ hd, List.getD_eq_getElem _ _ h,
    List.getElem_drop]

theorem getD_replicate_of_lt {α : Type} (a d : α) (n i : ℕ) (h : i < n) :
    (List.replicate n a).getD i d = a := by
  rw [List.getD_eq_getElem _ _ (by simpa using h), List.getElem_replicate]

theorem argmax_foldl_spec (f : ℕ → ℚ) :
    ∀ (l : List ℕ) (b : ℕ),
      (l.foldl (fun best j => if f best < f j then j else best) b = b
        ∨ l.foldl (fun best j => if f best < f j then j else best) b ∈ l)
      ∧ f b ≤ f (l.foldl (fun best j => if f best < f j then j else best) b)
      ∧ ∀ j ∈ l, f j ≤ f (l.foldl (fun best j => if f best < f j then j else best) b)
  | [], b => ⟨Or.inl rfl, le_refl _, by simp⟩
  | a :: l, b => by
    have ih := argmax_foldl_spec f l (if f b < f a then a else b)
    simp only [List.foldl_cons]
    refine ⟨?_, ?_, ?_⟩
    · rcases ih.1 with h | h
      · rw [h]
        by_cases hba : f b < f a
        · rw [if_pos hba]
          exact Or.inr (List.mem_cons_self a l)
        · rw [if_neg hba]
          exact Or.inl rfl
      · exact Or.inr (List.mem_cons_of_mem a h)
    · refine le_trans ?_ ih.2.1
      by_cases hba : f b < f a
      · rw [if_pos hba]
        exact le_of_lt hba
      · rw [if_neg hba]
    · intro j hj
      rcases List.mem_cons.mp hj with rfl | hj
      · refine le_trans ?_ ih.2.1
        by_cases hba : f b < f j
        · rw [if_pos hba]
        · rw [if_neg hba]
          exact le_of_not_lt hba
      · exact ih.2.2 j hj

theorem argmaxScore_lt (f : ℕ → ℚ) (V : ℕ) (hV : 0 < V) :
    argmaxScore f V < V := by
  rcases (argmax_foldl_spec f (List.range V) 0).1 with h | h
  · rw [argmaxScore, h]
    exact hV
  · exact List.mem_range.mp h

theorem argmaxScore_ge (f : ℕ → ℚ) (V j : ℕ) (hj : j < V) :
    f j ≤ f (argmaxScore f V) :=
  (argmax_foldl_spec f (List.range V) 0).2.2 j (List.mem_range.mpr hj)

theorem argmaxScore_ne_of_dominated (f : ℕ → ℚ) (V unk j : ℕ)
    (hj : j < V) (hgt : f unk < f j) : argmaxScore f V ≠ unk := by
  intro he
  have hle := argmaxScore_ge f V j hj
  rw [he] at hle
  exact absurd (lt_of_lt_of_le hgt hle) (lt_irrefl _)

theorem eosRowIds_length (eos pad : ℕ) (row : List ℕ) :
    (eosRowIds eos pad row).length = row.length := by
  rw [eosRowIds]
  cases h : row.findIdx? (fun t => t == eos) with
  | none => rfl
  | some e => exact sliceSet_length _ _ _

theorem eosRowIds_getD_cases (eos pad : ℕ) (row : List ℕ) (i : ℕ)
    (hi : i < row.length) :
    (eosRowIds eos pad row).getD i 0 = pad
    ∨ (eosRowIds eos pad row).getD i 0 = row.getD i 0 := by
  rw [eosRowIds]
  cases h : row.findIdx? (fun t => t == eos) with
  | none => exact Or.inr rfl
  | some e =>
    by_cases hlt : i < e + 1
    · exact Or.inr (sliceSet_getD_lt pad 0 row (e + 1) i hlt)
    · exact Or.inl (sliceSet_getD_ge pad 0 row (e + 1) i (by omega) hi)

theorem mask_tokens_after_eos_fst_length (eos pad : ℕ) :
    ∀ (ids : List (List ℕ)) (masks : List (List ℚ)),
      (mask_tokens_after_eos eos pad ids masks).1.length = ids.length
  | [], masks => rfl
  | row :: ids, [] => rfl
  | row :: ids, mrow :: masks => by
    have := mask_tokens_after_eos_fst_length eos pad ids masks
    simpa [mask_tokens_after_eos] using this

theorem mask_tokens_after_eos_snd_length (eos pad : ℕ) :
    ∀ (ids : List (List ℕ)) (masks : List (List ℚ)),
      masks.length = ids.length →
      (mask_tokens_after_eos eos pad ids masks).2.length = masks.length
  | [], masks, _ => rfl
  | row :: ids, [], h => by simp at h
  | row :: ids, mrow :: masks, h => by
    have := mask_tokens_after_eos_snd_length eos pad ids masks
      (by simpa using h)
    simpa [mask_tokens_after_eos] using this


theorem greedyFold_succ (model : TransModel) (unk : ℕ) (knn : Bool)
    (v : ℕ) (st0 : GreedyState) (m : ℕ) :
    greedyFold model unk knn v st0 (m + 1)
      = greedy_step_body model unk knn (greedyFold model unk knn v st0 m)
          (v + m) := by
  rw [greedyFold, greedyFold, List.range_succ, List.foldl_append,
    List.foldl_cons, List.foldl_nil]

theorem greedy_loop_invariant (model : TransModel) (knn : Bool)
    (v t L N : ℕ) (ids0 : List (List ℕ)) (masks0 : List (List ℚ))
    (ts0 : TransState) (hL : L = v + t) (hN : ids0.length = N)
    (hM : masks0.length = N)
    (hrow : ∀ ri, ri < N → (ids0.getD ri []).length = L)
    (hsc : ∀ ids masks n p, ∃ j, j < model.vocab ∧ j ≠ bilaUNK
      ∧ (-1e10 : ℚ) < model.scores ids masks n p j) :
    ∀ m, m ≤ t →
      (greedyFold model bilaUNK knn v
          ⟨ids0, masks0, List.replicate N bilaBOS, ts0⟩ m).ids.length = N
      ∧ (greedyFold model bilaUNK knn v
          ⟨ids0, masks0, List.replicate N bilaBOS, ts0⟩ m).masks.length = N
      ∧ (greedyFold model bilaUNK knn v
          ⟨ids0, masks0, List.replicate N bilaBOS, ts0⟩ m).next_symbols.length = N
      ∧ (∀ ri, ri < N →
          ((greedyFold model bilaUNK knn v
            ⟨ids0, masks0, List.replicate N bilaBOS, ts0⟩ m).ids.getD ri []).length = L)
      ∧ (∀ x ∈ (greedyFold model bilaUNK knn v
            ⟨ids0, masks0, List.replicate N bilaBOS, ts0⟩ m).next_symbols,
          x ≠ bilaUNK)
      ∧ (∀ ri, ri < N → ∀ p, v ≤ p → p < v + m →
          ((greedyFold model bilaUNK knn v
            ⟨ids0, masks0, List.replicate N bilaBOS, ts0⟩ m).ids.getD ri []).getD p 0
            ≠ bilaUNK) := by
  intro m
  induction m with
  | zero =>
    intro _
    refine ⟨hN, hM, by simp [greedyFold], ?_, ?_, ?_⟩
    · intro ri hri
      exact hrow ri hri
    · intro x hx
      have hx2 : x ∈ List.replicate N bilaBOS := by
        simpa [greedyFold] using hx
      rw [List.eq_of_mem_replicate hx2]
      decide
    · intro ri _ p hp1 hp2
      omega
  | succ m ih =>
    intro hm
    obtain ⟨e1, e2, e3, e4, e5, e6⟩ := ih (by omega)
    set stm := greedyFold model bilaUNK knn v
      ⟨ids0, masks0, List.replicate N bilaBOS, ts0⟩ m with hstm
    rw [greedyFold_succ]
    have hids2 : (greedy_step_body model bilaUNK knn stm (v + m)).ids
        = writeColIds (v + m) stm.next_symbols stm.ids := rfl
    have hmasks2 : (greedy_step_body model bilaUNK knn stm (v + m)).masks
        = writeColMasks (v + m) stm.masks := rfl
    have hlen2 : (writeColIds (v + m) stm.next_symbols stm.ids).length = N := by
      rw [writeColIds, List.length_zipWith, e1, e3]
      omega
    have hrow2 : ∀ ri, ri < N →
        (writeColIds (v + m) stm.next_symbols stm.ids).getD ri []
          = (stm.ids.getD ri []).set (v + m) (stm.next_symbols.getD ri 0) := by
      intro ri hri
      rw [writeColIds]
      exact getD_zipWith _ [] 0 [] _ _ ri (by omega) (by omega)
    have hnext2 : (greedy_step_body model bilaUNK knn stm (v + m)).next_symbols
        = (List.range N).map (fun n => argmaxScore
            (fun tk => suppressUnk
              (model.scores (writeColIds (v + m) stm.next_symbols stm.ids)
                (writeColMasks (v + m) stm.masks)) bilaUNK n (v + m) tk)
            model.vocab) := by
      show (List.range (writeColIds (v + m) stm.next_symbols stm.ids).length).map _
        = _
      rw [hlen2]
    refine ⟨by rw [hids2, hlen2], ?_, ?_, ?_, ?_, ?_⟩
    · rw [hmasks2, writeColMasks, List.length_map, e2]
    · rw [hnext2, List.length_map, List.length_range]
    · intro ri hri
      rw [hids2, hrow2 ri hri, List.length_set]
      exact e4 ri hri
    · intro x hx
      rw [hnext2] at hx
      obtain ⟨n, hn, hxe⟩ := List.mem_map.mp hx
      obtain ⟨j, hj1, hj2, hj3⟩ := hsc
        (writeColIds (v + m) stm.next_symbols stm.ids)
        (writeColMasks (v + m) stm.masks) n (v + m)
      rw [← hxe]
      refine argmaxScore_ne_of_dominated _ model.vocab bilaUNK j hj1 ?_
      have hunk : suppressUnk
          (model.scores (writeColIds (v + m) stm.next_symbols stm.ids)
            (writeColMasks (v + m) stm.masks)) bilaUNK n (v + m) bilaUNK
          = (-1e10 : ℚ) := by
        simp [suppressUnk]
      have hjv : suppressUnk
          (model.scores (writeColIds (v + m) stm.next_symbols stm.ids)
            (writeColMasks (v + m) stm.masks)) bilaUNK n (v + m) j
          = model.scores (writeColIds (v + m) stm.next_symbols stm.ids)
            (writeColMasks (v + m) stm.masks) n (v + m) j := by
        simp [suppressUnk, hj2]
      show suppressUnk
          (model.scores (writeColIds (v + m) stm.next_symbols stm.ids)
            (writeColMasks (v + m) stm.masks)) bilaUNK n (v + m) bilaUNK
        < suppressUnk
          (model.scores (writeColIds (v + m) stm.next_symbols stm.ids)
            (writeColMasks (v + m) stm.masks)) bilaUNK n (v + m) j
      rw [hunk, hjv]
      exact hj3
    · intro ri hri p hp1 hp2
      rw [hids2, hrow2 ri hri]
      by_cases hpm : p = v + m
      · rw [hpm, getD_set_self _ _ _ _ (by rw [e4 ri hri]; omega)]
        have hlt : ri < stm.next_symbols.length := by omega
        have hmem : stm.next_symbols.getD ri 0 ∈ stm.next_symbols := by
          rw [List.getD_eq_getElem _ _ hlt]
          exact List.getElem_mem _
        exact e5 _ hmem
      · rw [getD_set_ne _ _ _ _ _ (fun he => hpm he.symm)]
        exact e6 ri hri p hp1 (by omega)

/-- C3: in every greedy decoding step, the UNK logit is forced to
`-1e10` before the arg-max (last conjunct), and — whenever for every
model invocation some non-UNK token's logit exceeds `-1e10` — the
decoded sequence returned for the segment never contains the UNK id and
has one row of length exactly `max_t_len` per batch row. -/
theorem greedy_decoding_no_unk (model : TransModel) (v t : ℕ) (knn : Bool)
    (ids : List (List ℕ)) (masks : List (List ℚ)) (ts : TransState)
    (hrow : ∀ ri, ri < ids.length → (ids.getD ri []).length = v + t)
    (hM : masks.length = ids.length)
    (hsc : ∀ ids2 masks2 n p, ∃ j, j < model.vocab ∧ j ≠ bilaUNK
      ∧ (-1e10 : ℚ) < model.scores ids2 masks2 n p j) :
    (greedy_decoding_step model v t bilaBOS bilaUNK knn ids masks ts).dec_seq.length
      = ids.length
    ∧ (∀ ri, ri < ids.length →
        ((greedy_decoding_step model v t bilaBOS bilaUNK knn ids masks
            ts).dec_seq.getD ri []).length = t
        ∧ ∀ p, p < t →
          ((greedy_decoding_step model v t bilaBOS bilaUNK knn ids masks
              ts).dec_seq.getD ri []).getD p 0 ≠ bilaUNK)
    ∧ (∀ ids2 masks2 n p,
        suppressUnk (model.scores ids2 masks2) bilaUNK n p bilaUNK
          = (-1e10 : ℚ)) := by
  obtain ⟨f1, f2, f3, f4, f5, f6⟩ := greedy_loop_invariant model knn v t
    (v + t) ids.length ids masks ts rfl rfl hM hrow hsc t (le_refl t)
  have hdec : (greedy_decoding_step model v t bilaBOS bilaUNK knn ids masks
      ts).dec_seq
      = (mask_tokens_after_eos bilaEOS bilaPAD
          (greedyFold model bilaUNK knn v
            ⟨ids, masks, List.replicate ids.length bilaBOS, ts⟩ t).ids
          (greedyFold model bilaUNK knn v
            ⟨ids, masks, List.replicate ids.length bilaBOS, ts⟩ t).masks).1.map
        (fun row => row.drop v) := rfl
  have hmlen : (mask_tokens_after_eos bilaEOS bilaPAD
      (greedyFold model bilaUNK knn v
        ⟨ids, masks, List.replicate ids.length bilaBOS, ts⟩ t).ids
      (greedyFold model bilaUNK knn v
        ⟨ids, masks, List.replicate ids.length bilaBOS, ts⟩ t).masks).1.length
      = ids.length := by
    rw [mask_tokens_after_eos_fst_length, f1]
  refine ⟨by rw [hdec, List.length_map, hmlen], ?_, ?_⟩
  · intro ri hri
    have hrow1 : (mask_tokens_after_eos bilaEOS bilaPAD
        (greedyFold model bilaUNK knn v
          ⟨ids, masks, List.replicate ids.length bilaBOS, ts⟩ t).ids
        (greedyFold model bilaUNK knn v
          ⟨ids, masks, List.replicate ids.length bilaBOS, ts⟩ t).masks).1.getD ri []
        = eosRowIds bilaEOS bilaPAD
          ((greedyFold model bilaUNK knn v
            ⟨ids, masks, List.replicate ids.length bilaBOS, ts⟩ t).ids.getD ri []) :=
      (mask_tokens_after_eos_getD bilaEOS bilaPAD _ _ ri (by omega)
        (by rw [f2, f1])).1
    have hgd : (greedy_decoding_step model v t bilaBOS bilaUNK knn ids masks
        ts).dec_seq.getD ri []
        = (eosRowIds bilaEOS bilaPAD
            ((greedyFold model bilaUNK knn v
              ⟨ids, masks, List.replicate ids.length bilaBOS, ts⟩ t).ids.getD
              ri [])).drop v := by
      rw [hdec, getD_map_of_lt _ [] _ _ ri (by omega), hrow1]
    have hlrow : (eosRowIds bilaEOS bilaPAD
        ((greedyFold model bilaUNK knn v
          ⟨ids, masks, List.replicate ids.length bilaBOS, ts⟩ t).ids.getD
          ri [])).length = v + t := by
      rw [eosRowIds_length]
      exact f4 ri hri
    constructor
    · rw [hgd, List.length_drop, hlrow]
      omega
    · intro p hp
      rw [hgd, getD_drop_of_lt _ _ v p (by omega)]
      rcases eosRowIds_getD_cases bilaEOS bilaPAD
          ((greedyFold model bilaUNK knn v
            ⟨ids, masks, List.replicate ids.length bilaBOS, ts⟩ t).ids.getD
            ri []) (v + p) (by rw [eosRowIds_length] at hlrow; omega) with h | h
      · rw [h]
        decide
      · rw [h]
        exact f6 ri hri (v + p) (by omega) (by omega)
  · intro ids2 masks2 n p
    simp [suppressUnk]

/-- Witness for C3: one batch row, `max_v_len = 1`, `max_t_len = 1`,
with the constant score oracle. -/
theorem greedy_decoding_no_unk_witness :
    (greedy_decoding_step constModel 1 1 bilaBOS bilaUNK false [[9, 9]]
        [[1, 1]] translatorInit).dec_seq.length = [[9, 9]].length
    ∧ (∀ ri, ri < [[9, 9]].length →
        ((greedy_decoding_step constModel 1 1 bilaBOS bilaUNK false [[9, 9]]
            [[1, 1]] translatorInit).dec_seq.getD ri []).length = 1
        ∧ ∀ p, p < 1 →
          ((greedy_decoding_step constModel 1 1 bilaBOS bilaUNK false [[9, 9]]
              [[1, 1]] translatorInit).dec_seq.getD ri []).getD p 0 ≠ bilaUNK)
    ∧ (∀ ids2 masks2 n p,
        suppressUnk (constModel.scores ids2 masks2) bilaUNK n p bilaUNK
          = (-1e10 : ℚ)) :=
  greedy_decoding_no_unk constModel 1 1 false [[9, 9]] [[1, 1]]
    translatorInit (by decide) (by decide)
    (fun _ _ _ _ => ⟨0, by norm_num [constModel], by decide,
      by norm_num [constModel]⟩)

theorem greedy_step_body_ts_false (model : TransModel) (unk dec : ℕ)
    (st : GreedyState) :
    (greedy_step_body model unk false st dec).ts = st.ts := rfl

theorem greedy_step_body_lengths (model : TransModel) (unk : ℕ)
    (knn : Bool) (dec : ℕ) (st : GreedyState)
    (hlen : st.next_symbols.length = st.ids.length) :
    (greedy_step_body model unk knn st dec).ids.length = st.ids.length
    ∧ (greedy_step_body model unk knn st dec).next_symbols.length
      = st.ids.length
    ∧ (greedy_step_body model unk knn st dec).masks.length = st.masks.length := by
  have hbsz : (writeColIds dec st.next_symbols st.ids).length = st.ids.length := by
    rw [writeColIds, List.length_zipWith, hlen]
    omega
  refine ⟨hbsz, ?_, ?_⟩
  · show ((List.range (writeColIds dec st.next_symbols st.ids).length).map _).length
      = st.ids.length
    rw [List.length_map, List.length_range, hbsz]
  · show (writeColMasks dec st.masks).length = st.masks.length
    rw [writeColMasks, List.length_map]

theorem greedy_step_body_dstore (model : TransModel) (unk dec : ℕ)
    (st : GreedyState)
    (hlen : st.next_symbols.length = st.ids.length) :
    ((greedy_step_body model unk true st dec).ts.dstore_idx
      = st.ts.dstore_idx + st.ids.length)
    ∧ (∀ o, st.ts.dstore_idx ≤ o → o < st.ts.dstore_idx + st.ids.length →
        ((greedy_step_body model unk true st dec).ts.dstore_keys o).isSome = true
        ∧ ((greedy_step_body model unk true st dec).ts.dstore_vals o).isSome = true)
    ∧ (∀ o, o < st.ts.dstore_idx ∨ st.ts.dstore_idx + st.ids.length ≤ o →
        (greedy_step_body model unk true st dec).ts.dstore_keys o
          = st.ts.dstore_keys o
        ∧ (greedy_step_body model unk true st dec).ts.dstore_vals o
          = st.ts.dstore_vals o) := by
  have hbsz : (writeColIds dec st.next_symbols st.ids).length = st.ids.length := by
    rw [writeColIds, List.length_zipWith, hlen]
    omega
  have h1 : (greedy_step_body model unk true st dec).ts.dstore_idx
      = st.ts.dstore_idx + (writeColIds dec st.next_symbols st.ids).length := rfl
  have hkeys : (greedy_step_body model unk true st dec).ts.dstore_keys
      = fun o =>
        if st.ts.dstore_idx ≤ o
            ∧ o < st.ts.dstore_idx + (writeColIds dec st.next_symbols st.ids).length
        then some (fun d => model.knnFeats
          (writeColIds dec st.next_symbols st.ids)
          (writeColMasks dec st.masks) (o - st.ts.dstore_idx) dec d)
        else st.ts.dstore_keys o := rfl
  have hvals : (greedy_step_body model unk true st dec).ts.dstore_vals
      = fun o =>
        if st.ts.dstore_idx ≤ o
            ∧ o < st.ts.dstore_idx + (writeColIds dec st.next_symbols st.ids).length
        then some (fun tk => suppressUnk
          (model.scores (writeColIds dec st.next_symbols st.ids)
            (writeColMasks dec st.masks)) unk (o - st.ts.dstore_idx) dec tk)
        else st.ts.dstore_vals o := rfl
  refine ⟨by rw [h1, hbsz], ?_, ?_⟩
  · intro o ho1 ho2
    simp only [hkeys, hvals]
    rw [if_pos (by rw [hbsz]; exact ⟨ho1, ho2⟩),
      if_pos (by rw [hbsz]; exact ⟨ho1, ho2⟩)]
    exact ⟨rfl, rfl⟩
  · intro o ho
    simp only [hkeys, hvals]
    rw [if_neg (by rw [hbsz]; omega), if_neg (by rw [hbsz]; omega)]
    exact ⟨rfl, rfl⟩

theorem greedy_step_body_monotone (model : TransModel) (unk dec : ℕ)
    (knn : Bool) (st : GreedyState) :
    st.ts.dstore_idx ≤ (greedy_step_body model unk knn st dec).ts.dstore_idx := by
  cases knn with
  | false => rw [greedy_step_body_ts_false]
  | true =>
    have h1 : (greedy_step_body model unk true st dec).ts.dstore_idx
        = st.ts.dstore_idx + (writeColIds dec st.next_symbols st.ids).length := rfl
    rw [h1]
    omega

theorem greedyFold_dstore (model : TransModel) (unk v : ℕ) :
    ∀ (m : ℕ) (st : GreedyState),
      st.next_symbols.length = st.ids.length →
      (greedyFold model unk true v st m).ts.dstore_idx
        = st.ts.dstore_idx + m * st.ids.length
      ∧ (greedyFold model unk true v st m).ids.length = st.ids.length
      ∧ (greedyFold model unk true v st m).next_symbols.length
        = st.ids.length := by
  intro m
  induction m with
  | zero =>
    intro st h
    exact ⟨by simp [greedyFold], rfl, h⟩
  | succ m ih =>
    intro st h
    obtain ⟨i1, i2, i3⟩ := ih st h
    rw [greedyFold_succ]
    obtain ⟨b1, b2, b3⟩ := greedy_step_body_lengths model unk true (v + m)
      (greedyFold model unk true v st m) (by rw [i3, i2])
    obtain ⟨d1, _, _⟩ := greedy_step_body_dstore model unk (v + m)
      (greedyFold model unk true v st m) (by rw [i3, i2])
    refine ⟨?_, by rw [b1, i2], by rw [b2, i2]⟩
    rw [d1, i1, i2]
    ring

theorem greedy_decoding_step_dstore_delta (model : TransModel)
    (v t s u : ℕ) (ids : List (List ℕ)) (masks : List (List ℚ))
    (ts : TransState) :
    (greedy_decoding_step model v t s u true ids masks ts).ts.dstore_idx
      = ts.dstore_idx + t * ids.length := by
  have h := (greedyFold_dstore model u v t
    ⟨ids, masks, List.replicate ids.length s, ts⟩ (by simp)).1
  exact h

theorem translate_fold_dstore (v t : ℕ) :
    ∀ (l : List (TransModel × (List (List ℕ) × List (List ℚ))))
      (acc : List (List (List ℕ)) × TransState),
      (l.foldl
        (fun (acc : List (List (List ℕ)) × TransState) seg =>
          let r := greedy_decoding_step seg.1 v t bilaBOS bilaUNK true
            seg.2.1 seg.2.2 acc.2
          (acc.1 ++ [r.dec_seq], r.ts)) acc).2.dstore_idx
        = acc.2.dstore_idx + (l.map (fun seg => t * seg.2.1.length)).sum
  | [], acc => by simp
  | seg :: l, acc => by
    rw [List.foldl_cons]
    rw [translate_fold_dstore v t l]
    simp only [List.map_cons, List.sum_cons]
    rw [greedy_decoding_step_dstore_delta]
    ring

/-- C7: the datastore write offset starts at 0 at `Translator`
construction; with datastore construction on, each decoding iteration
writes exactly `bsz` key rows and `bsz` value rows at the consecutive
offsets `[dstore_idx, dstore_idx + bsz)` (leaving every other offset
untouched) and advances `dstore_idx` by `bsz`; the offset never
decreases (in either datastore mode); decoding one segment of
text-region length `t` with batch size `N` advances it by exactly
`t * N`; and `translate_batch_greedy` threads the offset across
segments without resetting it, ending at the initial offset plus the
sum of the per-segment increments. -/
theorem dstore_offset_invariants (v t : ℕ) :
    translatorInit.dstore_idx = 0
    ∧ (∀ (model : TransModel) (unk dec : ℕ) (st : GreedyState),
        st.next_symbols.length = st.ids.length →
        ((greedy_step_body model unk true st dec).ts.dstore_idx
          = st.ts.dstore_idx + st.ids.length)
        ∧ (∀ o, st.ts.dstore_idx ≤ o → o < st.ts.dstore_idx + st.ids.length →
            ((greedy_step_body model unk true st dec).ts.dstore_keys o).isSome
              = true
            ∧ ((greedy_step_body model unk true st dec).ts.dstore_vals o).isSome
              = true)
        ∧ (∀ o, o < st.ts.dstore_idx ∨ st.ts.dstore_idx + st.ids.length ≤ o →
            (greedy_step_body model unk true st dec).ts.dstore_keys o
              = st.ts.dstore_keys o
            ∧ (greedy_step_body model unk true st dec).ts.dstore_vals o
              = st.ts.dstore_vals o))
    ∧ (∀ (model : TransModel) (unk dec : ℕ) (knn : Bool) (st : GreedyState),
        st.ts.dstore_idx ≤ (greedy_step_body model unk knn st dec).ts.dstore_idx)
    ∧ (∀ (model : TransModel) (s u : ℕ) (ids : List (List ℕ))
        (masks : List (List ℚ)) (ts : TransState),
        (greedy_decoding_step model v t s u true ids masks ts).ts.dstore_idx
          = ts.dstore_idx + t * ids.length)
    ∧ (∀ (models : List TransModel) (selfv : ℕ)
        (idsL : List (List (List ℕ))) (masksL : List (List (List ℚ)))
        (segsL : List (List (List ℕ))) (ts : TransState)
        (res : List (List (List ℕ)) × TransState),
        translate_batch_greedy models selfv v t true idsL masksL segsL ts
          = Except.ok res →
        res.2.dstore_idx = ts.dstore_idx
          + ((List.zip models
              (List.zip (prepare_video_only_inputs idsL masksL segsL).1
                (prepare_video_only_inputs idsL masksL segsL).2)).map
              (fun seg => t * seg.2.1.length)).sum) := by
  refine ⟨rfl, ?_, ?_, ?_, ?_⟩
  · intro model unk dec st hlen
    exact greedy_step_body_dstore model unk dec st hlen
  · intro model unk dec knn st
    exact greedy_step_body_monotone model unk dec knn st
  · intro model s u ids masks ts
    exact greedy_decoding_step_dstore_delta model v t s u ids masks ts
  · intro models selfv idsL masksL segsL ts res hres
    simp only [translate_batch_greedy] at hres
    cases hcheck : checkTextMasked selfv
        (prepare_video_only_inputs idsL masksL segsL).1 with
    | error e =>
      rw [hcheck] at hres
      simp at hres
    | ok u =>
      rw [hcheck] at hres
      simp only [Except.ok.injEq] at hres
      rw [← hres]
      exact translate_fold_dstore v t _ ([], ts)

/-- Witness for C7: one concrete decoding iteration with batch size 1
advances the datastore offset from 0 by 1. -/
theorem dstore_offset_invariants_witness :
    translatorInit.dstore_idx = 0
    ∧ (greedy_step_body constModel 6 true
        ⟨[[9, 9]], [[1, 1]], [4], translatorInit⟩ 1).ts.dstore_idx
      = (translatorInit : TransState).dstore_idx + [[9, 9]].length :=
  ⟨(dstore_offset_invariants 1 1).1,
    ((dstore_offset_invariants 1 1).2.1 constModel 6 1
      ⟨[[9, 9]], [[1, 1]], [4], translatorInit⟩ (by decide)).1⟩

theorem natSum_eq_zero_iff : ∀ (l : List ℕ), l.sum = 0 ↔ ∀ x ∈ l, x = 0
  | [] => by simp
  | a :: l => by
    rw [List.sum_cons, Nat.add_eq_zero, natSum_eq_zero_iff l,
      List.forall_mem_cons]

theorem checkAll_iff (selfv : ℕ) (l : List (List (List ℕ))) :
    (l.all (fun seg =>
        (seg.map (fun row => (row.drop (selfv + 1)).sum)).sum == 0) = true)
    ↔ (∀ seg ∈ l, ∀ row ∈ seg, ∀ tok ∈ row.drop (selfv + 1), tok = 0) := by
  rw [List.all_eq_true]
  constructor
  · intro h seg hseg row hrow tok htok
    have h2 := h seg hseg
    have h3 : (seg.map (fun row => (row.drop (selfv + 1)).sum)).sum = 0 := by
      simpa using h2
    rw [natSum_eq_zero_iff] at h3
    have h4 : (row.drop (selfv + 1)).sum = 0 :=
      h3 _ (List.mem_map_of_mem _ hrow)
    rw [natSum_eq_zero_iff] at h4
    exact h4 tok htok
  · intro h seg hseg
    have h3 : (seg.map (fun row => (row.drop (selfv + 1)).sum)).sum = 0 := by
      rw [natSum_eq_zero_iff]
      intro y hy
      obtain ⟨row, hrow, rfl⟩ := List.mem_map.mp hy
      rw [natSum_eq_zero_iff]
      exact fun tok htok => h seg hseg row hrow tok htok
    simpa using h3

/-- C8 amended: `translate_batch_greedy` succeeds iff, after video-only
preparation, every token id strictly after position `self.cfg.max_v_len`
is zero — the assertion inspects the prepared token ids
(`input_ids_list`), not the validity-mask bits, and it skips position
`max_v_len` itself; when some such id is nonzero it fails fast with the
assertion message, regardless of the mask bits. -/
theorem translate_batch_greedy_errors_iff_ids (models : List TransModel)
    (selfv v t : ℕ) (knn : Bool) (idsL : List (List (List ℕ)))
    (masksL : List (List (List ℚ))) (segsL : List (List (List ℕ)))
    (ts : TransState) :
    ((translate_batch_greedy models selfv v t knn idsL masksL segsL
        ts).isOk = true
      ↔ ∀ seg ∈ (prepare_video_only_inputs idsL masksL segsL).1,
          ∀ row ∈ seg, ∀ tok ∈ row.drop (selfv + 1), tok = 0)
    ∧ (¬ (∀ seg ∈ (prepare_video_only_inputs idsL masksL segsL).1,
          ∀ row ∈ seg, ∀ tok ∈ row.drop (selfv + 1), tok = 0) →
        translate_batch_greedy models selfv v t knn idsL masksL segsL ts
          = Except.error "Initially, all text tokens should be masked") := by
  by_cases hb : ((prepare_video_only_inputs idsL masksL segsL).1.all
      (fun seg =>
        (seg.map (fun row => (row.drop (selfv + 1)).sum)).sum == 0)) = true
  · have hok : checkTextMasked selfv
        (prepare_video_only_inputs idsL masksL segsL).1 = Except.ok () := by
      rw [checkTextMasked, if_pos hb]
    constructor
    · simp only [translate_batch_greedy, hok]
      exact ⟨fun _ => (checkAll_iff selfv _).mp hb, fun _ => rfl⟩
    · intro hcond
      exact absurd ((checkAll_iff selfv _).mp hb) hcond
  · have herr : checkTextMasked selfv
        (prepare_video_only_inputs idsL masksL segsL).1
        = Except.error "Initially, all text tokens should be masked" := by
      rw [checkTextMasked, if_neg hb]
    constructor
    · simp only [translate_batch_greedy, herr]
      exact ⟨fun hfalse => absurd hfalse (by decide),
        fun hcond => (hb ((checkAll_iff selfv _).mpr hcond)).elim⟩
    · intro hcond
      simp only [translate_batch_greedy, herr]

/-- C8 counterexample: a segment whose validity mask still has a `1` at
text position 2 after video-only preparation (so the text region is not
fully masked), yet `translate_batch_greedy` does not fail — the
assertion examines the token ids (all zero after position
`max_v_len + 1 = 2`), never the mask bits.  Here `self.cfg.max_v_len =
1`, the segment-type ids are all 0 (so preparation changes nothing), and
the claim's predicted assertion error does not occur. -/
theorem translate_precondition_ignores_masks :
    (((prepare_video_only_inputs [[[3, 0, 0]]] [[[1, 0, 1]]]
        [[[0, 0, 0]]]).2.getD 0 []).getD 0 []).getD 2 0 = 1
    ∧ (translate_batch_greedy [constModel] 1 1 2 false [[[3, 0, 0]]]
        [[[1, 0, 1]]] [[[0, 0, 0]]] translatorInit).isOk = true := by
  constructor
  · decide
  · decide

/-- Witness for C8 (amended) at the counterexample's input. -/
theorem translate_batch_greedy_errors_iff_ids_witness :
    ((translate_batch_greedy [constModel] 1 1 2 false [[[3, 0, 0]]]
        [[[1, 0, 1]]] [[[0, 0, 0]]] translatorInit).isOk = true
      ↔ ∀ seg ∈ (prepare_video_only_inputs [[[3, 0, 0]]] [[[1, 0, 1]]]
          [[[0, 0, 0]]]).1,
          ∀ row ∈ seg, ∀ tok ∈ row.drop (1 + 1), tok = 0) :=
  (translate_batch_greedy_errors_iff_ids [constModel] 1 1 2 false
    [[[3, 0, 0]]] [[[1, 0, 1]]] [[[0, 0, 0]]] translatorInit).1

/-! ## Part 3: the MART model (src/mart/model.py)

Tensors are functions into `ℚ`; shapes are passed explicitly where an
operation needs them (sum ranges, dropout element counts).  The
transcendental primitives used by torch are abstracted in `Prim`; the
global torch RNG consumed by `nn.Dropout` in training mode is a
`ℕ → Bool` stream (`true` = drop this element) read at a running
position that is part of the mutable model state. -/

/-- Abstract interpretations of the transcendental primitives (exp,
log, sin, cos, erf, sqrt).  Every theorem below holds for an arbitrary
`Prim`, so nothing depends on their actual values. -/
structure Prim where
  exp : ℚ → ℚ
  log : ℚ → ℚ
  sin : ℚ → ℚ
  cos : ℚ → ℚ
  erf : ℚ → ℚ
  sqrtq : ℚ → ℚ

/-- Batched matrix: `(batch, d)`. -/
abbrev T2 : Type := ℕ → ℕ → ℚ

/-- Batched 3-tensor: `(batch, l, d)`. -/
abbrev T3 : Type := ℕ → ℕ → ℕ → ℚ

/-- Parameters of one `nn.Linear(inDim, outDim)`. -/
structure LinParams where
  weight : ℕ → ℕ → ℚ
  bias : ℕ → ℚ
  inDim : ℕ
  outDim : ℕ

/-- Application of `nn.Linear` to one vector: `y j = Σ_i W j i * x i + b j`. -/
def linW (weight : ℕ → ℕ → ℚ) (bias : ℕ → ℚ) (inDim : ℕ) (x : ℕ → ℚ)
    (j : ℕ) : ℚ :=
  (∑ i in Finset.range inDim, weight j i * x i) + bias j

def linear2 (p : LinParams) (x : T2) : T2 :=
  fun n => linW p.weight p.bias p.inDim (x n)

def linear3 (p : LinParams) (x : T3) : T3 :=
  fun n l => linW p.weight p.bias p.inDim (x n l)

def relu2 (x : T2) : T2 := fun n d => max 0 (x n d)

def relu3 (x : T3) : T3 := fun n l d => max 0 (x n l d)

/-- Parameters of one `nn.LayerNorm` over the last dimension. -/
structure LNParams where
  gamma : ℕ → ℚ
  beta : ℕ → ℚ
  eps : ℚ
  dim : ℕ

/-- `nn.LayerNorm` on one vector (biased variance, as torch). -/
def layerNormVec (prim : Prim) (p : LNParams) (x : ℕ → ℚ) : ℕ → ℚ :=
  fun d =>
    (x d - (∑ i in Finset.range p.dim, x i) / p.dim)
      / prim.sqrtq ((∑ i in Finset.range p.dim,
          (x i - (∑ i2 in Finset.range p.dim, x i2) / p.dim) ^ 2) / p.dim
        + p.eps)
      * p.gamma d + p.beta d

def layerNorm2 (prim : Prim) (p : LNParams) (x : T2) : T2 :=
  fun n => layerNormVec prim p (x n)

def layerNorm3 (prim : Prim) (p : LNParams) (x : T3) : T3 :=
  fun n l => layerNormVec prim p (x n l)

/-- One Bernoulli draw of `nn.Dropout` in training mode: stream value
`true` drops the element, survivors are scaled by `1 / (1 - p)`. -/
def dropoutVal (p : ℚ) (rng : ℕ → Bool) (idx : ℕ) (v : ℚ) : ℚ :=
  if rng idx then 0 else v / (1 - p)

/-- `nn.Dropout` on a `(N, D)` tensor: consumes `N * D` draws in
row-major order when training, is the identity (consuming nothing) in
eval mode. -/
def dropout2 (p : ℚ) (training : Bool) (rng : ℕ → Bool) (pos : ℕ)
    (N D : ℕ) (x : T2) : T2 × ℕ :=
  if training then
    ((fun n d => dropoutVal p rng (pos + n * D + d) (x n d)), pos + N * D)
  else (x, pos)

/-- `nn.Dropout` on a `(N, L, D)` tensor. -/
def dropout3 (p : ℚ) (training : Bool) (rng : ℕ → Bool) (pos : ℕ)
    (N L D : ℕ) (x : T3) : T3 × ℕ :=
  if training then
    ((fun n l d => dropoutVal p rng (pos + (n * L + l) * D + d) (x n l d)),
      pos + N * L * D)
  else (x, pos)

/-- `nn.Dropout` on a `(N, H, Q, K)` tensor (attention probabilities). -/
def dropout4 (p : ℚ) (training : Bool) (rng : ℕ → Bool) (pos : ℕ)
    (N H Q K : ℕ) (x : ℕ → ℕ → ℕ → ℕ → ℚ) : (ℕ → ℕ → ℕ → ℕ → ℚ) × ℕ :=
  if training then
    ((fun n h q k => dropoutVal p rng (pos + ((n * H + h) * Q + q) * K + k)
        (x n h q k)), pos + N * H * Q * K)
  else (x, pos)

/-- The module-level `gelu` of src/mart/model.py (line 83-92):
`x * 0.5 * (1 + erf(x / sqrt 2))`; `nn.GELU` computes the same. -/
def geluQ (prim : Prim) (x : ℚ) : ℚ :=
  x * (1 / 2) * (1 + prim.erf (x / prim.sqrtq 2))

/-- Entry `(pos, i)` of the sinusoidal table built by
`PositionEncoding.__init__` (src/mart/model.py lines 108-122). -/
def peTable (prim : Prim) (n_filters : ℕ) (pos i : ℕ) : ℚ :=
  if i % 2 = 0 then
    prim.sin (pos * prim.exp ((i : ℚ) * (-(prim.log 10000) / n_filters)))
  else
    prim.cos (pos * prim.exp (((i - 1 : ℕ) : ℚ) * (-(prim.log 10000) / n_filters)))

/-- `PositionEncoding.forward` (src/mart/model.py lines 124-134):
adds the table entries elementwise. -/
def positionEncoding3 (prim : Prim) (n_filters : ℕ) (x : T3) : T3 :=
  fun n l d => x n l d + peTable prim n_filters l d

/-- `nn.Embedding` lookup. -/
def embedLookup (E : ℕ → ℕ → ℚ) (ids : ℕ → ℕ → ℕ) : T3 :=
  fun n l d => E (ids n l) d

/-- Parameters of `SelfAttention` (src/mart/model.py lines 137-157). -/
structure SelfAttentionP where
  num_attention_heads : ℕ
  attention_head_size : ℕ
  query_w : LinParams
  key_w : LinParams
  value_w : LinParams
  dropout_p : ℚ

/-- `SelfAttention.forward` (src/mart/model.py lines 167-206).  `Lq` is
the number of query rows, `L` of key/value rows.  When a mask of shape
`(N, L, L)` meets scores of shape `(N, nh, 1, L)` (the decoder's
cross-attention, whose query is the single-row clip history), torch
broadcasting stretches the query axis, which is modelled by `qIdx`/
`Lout`.  The `transpose_for_scores` reshapes amount to reading channel
`h * dh + d` for head `h`. -/
def selfAttentionF (prim : Prim) (p : SelfAttentionP) (training : Bool)
    (rng : ℕ → Bool) (pos : ℕ) (N Lq L : ℕ) (query key value : T3)
    (attention_mask : Option (ℕ → ℕ → ℕ → ℚ)) : T3 × ℕ :=
  let maskAdd : ℕ → ℕ → ℕ → ℚ := fun n q k =>
    match attention_mask with
    | none => 0
    | some m => (1 - m n q k) * (-10000)
  let mixed_query := linear3 p.query_w query
  let mixed_key := linear3 p.key_w key
  let mixed_value := linear3 p.value_w value
  let dh := p.attention_head_size
  let qIdx : ℕ → ℕ := fun q => if Lq = 1 then 0 else q
  let Lout := if Lq = 1 ∧ attention_mask.isSome then L else Lq
  let att_w : ℕ → ℕ → ℕ → ℕ → ℚ := fun n h q k =>
    (∑ d in Finset.range dh,
        mixed_query n (qIdx q) (h * dh + d) * mixed_key n k (h * dh + d))
      / prim.sqrtq dh + maskAdd n q k
  let attention_probs : ℕ → ℕ → ℕ → ℕ → ℚ := fun n h q k =>
    prim.exp (att_w n h q k)
      / (∑ k2 in Finset.range L, prim.exp (att_w n h q k2))
  let dp := dropout4 p.dropout_p training rng pos N p.num_attention_heads
    Lout L attention_probs
  ((fun n q j => ∑ k in Finset.range L, dp.1 n (j / dh) q k * mixed_value n k j),
    dp.2)

/-- Parameters of `SelfOutput` (src/mart/model.py lines 209-224). -/
structure SelfOutputP where
  dense : LinParams
  LayerNorm : LNParams
  dropout_p : ℚ

/-- `SelfOutput.forward`: dense, dropout, then layer norm of
`hidden + input`.  `Lh` is the row count of `hidden_states`, `L` of
`input_tensor`; the `if Lh = 1` broadcast mirrors torch addition. -/
def selfOutputF (prim : Prim) (p : SelfOutputP) (training : Bool)
    (rng : ℕ → Bool) (pos : ℕ) (N Lh L : ℕ) (hidden input : T3) : T3 × ℕ :=
  let dp := dropout3 p.dropout_p training rng pos N Lh p.dense.outDim
    (linear3 p.dense hidden)
  (layerNorm3 prim p.LayerNorm
    (fun n l d => dp.1 n (if Lh = 1 then 0 else l) d + input n l d), dp.2)

/-- Parameters of `Attention` (src/mart/model.py lines 227-249). -/
structure AttentionP where
  selfAttn : SelfAttentionP
  output : SelfOutputP

/-- `Attention.forward`: with `clip_his` present, queries come from it
(`Lclip` rows) while keys/values come from `x`. -/
def attentionF (prim : Prim) (p : AttentionP) (training : Bool)
    (rng : ℕ → Bool) (pos : ℕ) (N L Lclip : ℕ) (x : T3)
    (attention_mask : Option (ℕ → ℕ → ℕ → ℚ)) (clip_his : Option T3) :
    T3 × ℕ :=
  match clip_his with
  | some clip =>
    let so := selfAttentionF prim p.selfAttn training rng pos N Lclip L
      clip x x attention_mask
    selfOutputF prim p.output training rng so.2 N
      (if Lclip = 1 ∧ attention_mask.isSome then L else Lclip) L so.1 x
  | none =>
    let so := selfAttentionF prim p.selfAttn training rng pos N L L
      x x x attention_mask
    selfOutputF prim p.output training rng so.2 N L L so.1 x

/-- Parameters of `Intermediate` (src/mart/model.py lines 252-265). -/
structure IntermediateP where
  dense : LinParams

/-- `Intermediate.forward`: dense then gelu. -/
def intermediateF (prim : Prim) (p : IntermediateP) (x : T3) : T3 :=
  fun n l d => geluQ prim (linear3 p.dense x n l d)

/-- Parameters of `TrmFeedForward` (src/mart/model.py lines 342-360). -/
structure TrmFeedForwardP where
  dense_f : LinParams
  dense_s : LinParams
  LayerNorm : LNParams
  dropout_p : ℚ

/-- `TrmFeedForward.forward`: dense, relu, dense, dropout, layer norm of
`hidden + input`. -/
def trmFeedForwardF (prim : Prim) (p : TrmFeedForwardP) (training : Bool)
    (rng : ℕ → Bool) (pos : ℕ) (N L : ℕ) (hidden input : T3) : T3 × ℕ :=
  let dp := dropout3 p.dropout_p training rng pos N L p.dense_s.outDim
    (linear3 p.dense_s (relu3 (linear3 p.dense_f hidden)))
  (layerNorm3 prim p.LayerNorm (fun n l d => dp.1 n l d + input n l d), dp.2)

/-- Parameters of `LayerWoMemory` (src/mart/model.py lines 363-387).
The constructor also builds an `Output` sublayer, but `forward` returns
the `Intermediate` output directly and never uses it, so it is not
modelled. -/
structure LayerWoMemoryP where
  attention : AttentionP
  hidden_intermediate : IntermediateP

/-- `LayerWoMemory.forward`: pad-shifted (non-decoder) mask, attention,
then intermediate. -/
def layerWoMemoryF (prim : Prim) (p : LayerWoMemoryP) (training : Bool)
    (rng : ℕ → Bool) (pos : ℕ) (N L v t : ℕ) (hidden : T3)
    (attention_mask : T2) (clip_feats : Option T3) (Lclip : ℕ) : T3 × ℕ :=
  let att := attentionF prim p.attention training rng pos N L Lclip hidden
    (some (make_pad_shifted_mask attention_mask v t 0 false)) clip_feats
  (intermediateF prim p.hidden_intermediate att.1, att.2)

/-- `EncoderWoMemory.forward` (src/mart/model.py lines 390-414) with
`output_all_encoded_layers=False`, as `forward_step` calls it: the
returned list holds only the last layer's output. -/
def encoderWoMemoryF (prim : Prim) (layers : List LayerWoMemoryP)
    (training : Bool) (rng : ℕ → Bool) (pos : ℕ) (N L v t : ℕ)
    (hidden : T3) (attention_mask : T2) (clip_feats : Option T3)
    (Lclip : ℕ) : T3 × ℕ :=
  layers.foldl
    (fun acc lp => layerWoMemoryF prim lp training rng acc.2 N L v t acc.1
      attention_mask clip_feats Lclip)
    (hidden, pos)

/-- Parameters of `DecoderLayer` (src/mart/model.py lines 417-439). -/
structure DecoderLayerP where
  attention : AttentionP
  output : TrmFeedForwardP

/-- `DecoderLayer.forward`: pad-shifted mask requested with
`decoder=True` (which `make_pad_shifted_mask` ignores), cross-attention
with the single-row clip history as query, then feed-forward. -/
def decoderLayerF (prim : Prim) (p : DecoderLayerP) (training : Bool)
    (rng : ℕ → Bool) (pos : ℕ) (N L v t : ℕ) (x : T3)
    (attention_mask : T2) (clip_his : T3) : T3 × ℕ :=
  let att := attentionF prim p.attention training rng pos N L 1 x
    (some (make_pad_shifted_mask attention_mask v t 0 true)) (some clip_his)
  trmFeedForwardF prim p.output training rng att.2 N L att.1 att.1

/-- `Decoder.forward` (src/mart/model.py lines 464-488), returning the
last layer's output (`decoded_layer_outputs[-1]`).  The `query_clip`
binding computed there is dead code and is not modelled. -/
def decoderF (prim : Prim) (layers : List DecoderLayerP) (training : Bool)
    (rng : ℕ → Bool) (pos : ℕ) (N L v t : ℕ) (x : T3)
    (attention_mask : T2) (clip_his : T3) : T3 × ℕ :=
  layers.foldl
    (fun acc lp => decoderLayerF prim lp training rng acc.2 N L v t acc.1
      attention_mask clip_his)
    (x, pos)

/-- Parameters of `SenseLayer` (src/mart/model.py lines 441-461). -/
structure SenseLayerP where
  attention : AttentionP
  output : TrmFeedForwardP

/-- `SenseLayer.forward`: attention with no mask, then feed-forward. -/
def senseLayerF (prim : Prim) (p : SenseLayerP) (training : Bool)
    (rng : ℕ → Bool) (pos : ℕ) (N L Lclip : ℕ) (x : T3) (clip_his : T3) :
    T3 × ℕ :=
  let att := attentionF prim p.attention training rng pos N L Lclip x none
    (some clip_his)
  trmFeedForwardF prim p.output training rng att.2 N L att.1 att.1

/-- `SensorTransformer.forward` (src/mart/model.py lines 491-513):
each layer is called as `layer_module(hidden_states, hidden_states)`;
returns the last layer's output. -/
def sensorTransformerF (prim : Prim) (layers : List SenseLayerP)
    (training : Bool) (rng : ℕ → Bool) (pos : ℕ) (N L : ℕ)
    (hidden : T3) : T3 × ℕ :=
  layers.foldl
    (fun acc lp => senseLayerF prim lp training rng acc.2 N L L acc.1 acc.1)
    (hidden, pos)

/-- Parameters of `RelationalSelfAttention` (src/mart/model.py lines
690-736); `p`, `h`, `g` are the raw learned tensors, `m = 3`,
`hidden_size = 384`. -/
structure RelationalSelfAttentionP where
  m : ℕ
  hidden_size : ℕ
  query_layer : LinParams
  key_layer : LinParams
  value_layer : LinParams
  p : ℕ → ℕ → ℚ
  h : ℕ → ℕ → ℚ
  g : ℕ → ℕ → ℚ

/-- `RelationalSelfAttention.forward` in index form: `kernel_v n i =
Σ_d p i d * query n d`; `x_q n i d = query n d * key n i d` flattened at
`c = i * hidden + d` against `h`; relational context
`x_nr = value ⬝ (valueᵀ ⬝ g)` added to `value`; output
`out n e = Σ_i kernel n i * context n i e`. -/
def relationalSelfAttentionF (rp : RelationalSelfAttentionP) (N : ℕ)
    (target : T2) (cont : T3) : T2 :=
  let query := linear2 rp.query_layer target
  let key := linear3 rp.key_layer cont
  let value := linear3 rp.value_layer cont
  let kernel : ℕ → ℕ → ℚ := fun n i =>
    (∑ d in Finset.range rp.hidden_size, rp.p i d * query n d)
    + (∑ c in Finset.range (rp.m * rp.hidden_size),
        query n (c % rp.hidden_size) * key n (c / rp.hidden_size)
            (c % rp.hidden_size)
          * rp.h c i)
  let xg : T3 := fun n d e => ∑ i in Finset.range rp.m, value n i d * rp.g i e
  let context : T3 := fun n i e =>
    (∑ d in Finset.range rp.hidden_size, value n i d * xg n d e) + value n i e
  fun n e => ∑ i in Finset.range rp.m, kernel n i * context n i e

/-- Parameters of `TrmEncLayer` (src/mart/model.py lines 516-536). -/
structure TrmEncLayerP where
  attention : RelationalSelfAttentionP
  output : TrmFeedForwardP

/-- `TrmEncLayer.forward`: relational self-attention updates only frame
1 of the 3-frame input, then the feed-forward processes the triple. -/
def trmEncLayerF (prim : Prim) (p : TrmEncLayerP) (training : Bool)
    (rng : ℕ → Bool) (pos : ℕ) (N : ℕ) (x : T3) : T3 × ℕ :=
  let target := relationalSelfAttentionF p.attention N (fun n d => x n 1 d) x
  let x2 : T3 := fun n l d => if l = 1 then target n d else x n l d
  trmFeedForwardF prim p.output training rng pos N 3 x2 x2

/-- Parameters of `TimeSeriesEncoder` (src/mart/model.py lines
539-552): 2 `TrmEncLayer`s and a shared feed-forward;
`PositionEncoding(n_filters=384)`. -/
structure TimeSeriesEncoderP where
  layers : List TrmEncLayerP
  ff : TrmFeedForwardP

/-- `TimeSeriesEncoder.forward`. -/
def timeSeriesEncoderF (prim : Prim) (p : TimeSeriesEncoderP)
    (training : Bool) (rng : ℕ → Bool) (pos : ℕ) (N : ℕ) (x : T3) :
    T3 × ℕ :=
  let fl := p.layers.foldl
    (fun acc lp => trmEncLayerF prim lp training rng acc.2 N acc.1)
    (positionEncoding3 prim 384 x, pos)
  trmFeedForwardF prim p.ff training rng fl.2 N 3 fl.1 fl.1

/-- Parameters of `TimeSeriesMoudule` (src/mart/model.py lines
739-758): the unbounded learned gate scalar `z`, the 384→768 `expand`
linear, and a `nn.LayerNorm(768)` with torch's default eps. -/
structure TimeSeriesMouduleP where
  TSEncoder : TimeSeriesEncoderP
  expand : LinParams
  layernorm : LNParams
  z : ℚ

/-- `TimeSeriesMoudule.forward`: encode, gate `z·x + (1-z)·ts`, expand
to 768, and layer-norm the middle frame reshaped to a single row. -/
def timeSeriesMouduleF (prim : Prim) (p : TimeSeriesMouduleP)
    (training : Bool) (rng : ℕ → Bool) (pos : ℕ) (N : ℕ) (x : T3) :
    (T3 × T3) × ℕ :=
  let ts := timeSeriesEncoderF prim p.TSEncoder training rng pos N x
  let ts3 := linear3 p.expand
    (fun n l d => p.z * x n l d + (1 - p.z) * ts.1 n l d)
  ((ts3, layerNorm3 prim p.layernorm (fun n _ d => ts3 n 1 d)), ts.2)

/-- Parameters of `EmbeddingsWithVideo` (src/mart/model.py lines
555-600): word/type embedding tables, the `word_fc` and
`video_embeddings` sequentials, positional encoding width, final layer
norm and dropout. -/
structure EmbeddingsWithVideoP where
  word_embeddings : ℕ → ℕ → ℚ
  word_fc_ln1 : LNParams
  word_fc_dropout_p : ℚ
  word_fc_linear : LinParams
  word_fc_ln2 : LNParams
  video_ln1 : LNParams
  video_linear : LinParams
  video_ln2 : LNParams
  token_type_embeddings : ℕ → ℕ → ℚ
  position_n_filters : ℕ
  LayerNorm : LNParams
  dropout_p : ℚ

/-- `EmbeddingsWithVideo.forward` (src/mart/model.py lines 615-634).
Note the transcribed `words_embeddings += token_type_embeddings`
followed by `words + video + type`: the type embedding enters twice. -/
def embeddingsWithVideoF (prim : Prim) (p : EmbeddingsWithVideoP)
    (training : Bool) (rng : ℕ → Bool) (pos : ℕ) (N L : ℕ)
    (input_ids : ℕ → ℕ → ℕ) (video_features : T3)
    (token_type_ids : ℕ → ℕ → ℕ) : T3 × ℕ :=
  let dpw := dropout3 p.word_fc_dropout_p training rng pos N L
    p.word_fc_ln1.dim
    (layerNorm3 prim p.word_fc_ln1 (embedLookup p.word_embeddings input_ids))
  let we := layerNorm3 prim p.word_fc_ln2
    (relu3 (linear3 p.word_fc_linear dpw.1))
  let ve := layerNorm3 prim p.video_ln2
    (relu3 (linear3 p.video_linear (layerNorm3 prim p.video_ln1
      video_features)))
  let tte := embedLookup p.token_type_embeddings token_type_ids
  let embeddings : T3 := fun n l d =>
    (we n l d + tte n l d) + ve n l d + tte n l d
  let dpo := dropout3 p.dropout_p training rng dpw.2 N L p.LayerNorm.dim
    (layerNorm3 prim p.LayerNorm
      (positionEncoding3 prim p.position_n_filters embeddings))
  (dpo.1, dpo.2)

/-- Parameters of `PredictionHeadTransform` (src/mart/model.py lines
637-651). -/
structure PredictionHeadTransformP where
  dense : LinParams
  LayerNorm : LNParams

/-- `PredictionHeadTransform.forward`: dense, gelu, layer norm. -/
def predictionHeadTransformF (prim : Prim) (p : PredictionHeadTransformP)
    (x : T3) : T3 :=
  layerNorm3 prim p.LayerNorm (fun n l d => geluQ prim (linear3 p.dense x n l d))

/-- Parameters of `LMPredictionHead` (src/mart/model.py lines 654-687):
the transform, the final (bias-free) linear `decoder`, and the explicit
output bias. -/
structure LMPredictionHeadP where
  transform : PredictionHeadTransformP
  decoder : LinParams
  bias : ℕ → ℚ

/-- `LMPredictionHead.forward`: transform, then
`decoder(hidden) + bias`. -/
def lmPredictionHeadF (prim : Prim) (p : LMPredictionHeadP) (x : T3) : T3 :=
  fun n l d =>
    linear3 p.decoder (predictionHeadTransformF prim p.transform x) n l d
      + p.bias d

/-- Parameters of the `pred_f` sequential (src/mart/model.py lines
796-803): Linear(384,768), ReLU, Linear(768,384), ReLU, Dropout(0.1),
Linear(384,384). -/
structure PredFP where
  l1 : LinParams
  l2 : LinParams
  l3 : LinParams
  dropout_p : ℚ

/-- Application of `pred_f` to a `(N, 384)` tensor. -/
def predF_apply (p : PredFP) (training : Bool) (rng : ℕ → Bool) (pos : ℕ)
    (N : ℕ) (x : T2) : T2 × ℕ :=
  let dp := dropout2 p.dropout_p training rng pos N p.l2.outDim
    (relu2 (linear2 p.l2 (relu2 (linear2 p.l1 x))))
  (linear2 p.l3 dp.1, dp.2)

/-- Parameters of the `sens_pre_mod` sequential (src/mart/model.py
lines 811-822): Linear(768,128), ReLU, LayerNorm(128), Linear(128,32),
ReLU, Dropout(0.2), Linear(32,8), ReLU, LayerNorm(8), Linear(8,1). -/
structure SensPreModP where
  l1 : LinParams
  ln1 : LNParams
  l2 : LinParams
  dropout_p : ℚ
  l3 : LinParams
  ln2 : LNParams
  l4 : LinParams

/-- Application of `sens_pre_mod` to a `(N, L, 768)` tensor. -/
def sensPreMod_apply (prim : Prim) (p : SensPreModP) (training : Bool)
    (rng : ℕ → Bool) (pos : ℕ) (N L : ℕ) (x : T3) : T3 × ℕ :=
  let dp := dropout3 p.dropout_p training rng pos N L p.l2.outDim
    (relu3 (linear3 p.l2 (layerNorm3 prim p.ln1 (relu3 (linear3 p.l1 x)))))
  (linear3 p.l4 (layerNorm3 prim p.ln2 (relu3 (linear3 p.l3 dp.1))), dp.2)

/-- The configuration fields of `MartConfig` (mart/configs_mart.py is
outside `src/`; the fields are exactly those read by
src/mart/model.py). -/
structure MartConfig where
  recurrent : Bool
  use_glove : Bool
  vocab_size : ℕ
  word_vec_size : ℕ
  hidden_size : ℕ
  intermediate_size : ℕ
  video_feature_size : ℕ
  type_vocab_size : ℕ
  num_hidden_layers : ℕ
  num_attention_heads : ℕ
  max_v_len : ℕ
  max_t_len : ℕ
  max_position_embeddings : ℕ
  layer_norm_eps : ℚ
  hidden_dropout_prob : ℚ
  attention_probs_dropout_prob : ℚ
  share_wd_cls_weight : Bool

/-- Parameters of `RecursiveTransformer` (src/mart/model.py lines
762-824): `cfg` is the configuration as mutated by construction,
`decoder` is the LM prediction head (the attribute name in the source),
`transformerdecoder` the cross-attention decoder stack.  The loss
modules and the unused `ff`/`z_p` members carry no parameters relevant
to the claims. -/
structure RecursiveTransformerP where
  cfg : MartConfig
  embeddings : EmbeddingsWithVideoP
  TSModule : TimeSeriesMouduleP
  encoder : List LayerWoMemoryP
  senstrm : List SenseLayerP
  decoder : LMPredictionHeadP
  transformerdecoder : List DecoderLayerP
  z_f : ℚ
  size_adjust : LinParams
  upsampling : LinParams
  pred_f : PredFP
  sens_pre_mod : SensPreModP

/-- Construction of an `nn.Linear(i, o)` followed by
`init_bert_weights` (src/mart/model.py lines 826-839): the weight is a
random draw (kept abstract, from the weight source), the bias is zeroed. -/
def initLin (w : LinParams) (i o : ℕ) : LinParams :=
  ⟨w.weight, fun _ => 0, i, o⟩

/-- Construction of an `nn.LayerNorm(d, eps)` followed by
`init_bert_weights`: weight 1, bias 0. -/
def initLN (d : ℕ) (eps : ℚ) : LNParams :=
  ⟨fun _ => 1, fun _ => 0, eps, d⟩

def mkSelfAttention (cfg : MartConfig) (w : SelfAttentionP) : SelfAttentionP :=
  { num_attention_heads := cfg.num_attention_heads
    attention_head_size := cfg.hidden_size / cfg.num_attention_heads
    query_w := initLin w.query_w cfg.hidden_size
      (cfg.num_attention_heads * (cfg.hidden_size / cfg.num_attention_heads))
    key_w := initLin w.key_w cfg.hidden_size
      (cfg.num_attention_heads * (cfg.hidden_size / cfg.num_attention_heads))
    value_w := initLin w.value_w cfg.hidden_size
      (cfg.num_attention_heads * (cfg.hidden_size / cfg.num_attention_heads))
    dropout_p := cfg.attention_probs_dropout_prob }

def mkSelfOutput (cfg : MartConfig) (w : SelfOutputP) : SelfOutputP :=
  { dense := initLin w.dense cfg.hidden_size cfg.hidden_size
    LayerNorm := initLN cfg.hidden_size cfg.layer_norm_eps
    dropout_p := cfg.hidden_dropout_prob }

def mkAttention (cfg : MartConfig) (w : AttentionP) : AttentionP :=
  ⟨mkSelfAttention cfg w.selfAttn, mkSelfOutput cfg w.output⟩

def mkIntermediate (cfg : MartConfig) (w : IntermediateP) : IntermediateP :=
  ⟨initLin w.dense cfg.hidden_size cfg.intermediate_size⟩

def mkTrmFeedForward (cfg : MartConfig) (w : TrmFeedForwardP) :
    TrmFeedForwardP :=
  ⟨initLin w.dense_f cfg.hidden_size cfg.intermediate_size,
    initLin w.dense_s cfg.intermediate_size cfg.hidden_size,
    initLN cfg.hidden_size cfg.layer_norm_eps,
    cfg.hidden_dropout_prob⟩

def mkLayerWoMemory (cfg : MartConfig) (w : LayerWoMemoryP) :
    LayerWoMemoryP :=
  ⟨mkAttention cfg w.attention, mkIntermediate cfg w.hidden_intermediate⟩

def mkDecoderLayer (cfg : MartConfig) (w : DecoderLayerP) : DecoderLayerP :=
  ⟨mkAttention cfg w.attention, mkTrmFeedForward cfg w.output⟩

def mkSenseLayer (cfg : MartConfig) (w : SenseLayerP) : SenseLayerP :=
  ⟨mkAttention cfg w.attention, mkTrmFeedForward cfg w.output⟩

/-- `RelationalSelfAttention.__init__`: hidden size 384, `m = 3`; the
inner linears get zeroed biases from `init_bert_weights`; the raw
tensors `p`, `h`, `g` are plain `torch.randn` tensors (not modules), so
`init_bert_weights` leaves them as drawn. -/
def mkRSA (w : RelationalSelfAttentionP) : RelationalSelfAttentionP :=
  { m := 3, hidden_size := 384
    query_layer := initLin w.query_layer 384 384
    key_layer := initLin w.key_layer 384 384
    value_layer := initLin w.value_layer 384 384
    p := w.p, h := w.h, g := w.g }

def zeroLin : LinParams := ⟨fun _ _ => 0, fun _ => 0, 0, 0⟩

def zeroLN : LNParams := ⟨fun _ => 0, fun _ => 0, 0, 0⟩

def zeroTrmFeedForwardP : TrmFeedForwardP := ⟨zeroLin, zeroLin, zeroLN, 0⟩

def zeroRSAP : RelationalSelfAttentionP :=
  ⟨0, 0, zeroLin, zeroLin, zeroLin, fun _ _ => 0, fun _ _ => 0, fun _ _ => 0⟩

def zeroTrmEncLayerP : TrmEncLayerP := ⟨zeroRSAP, zeroTrmFeedForwardP⟩

def zeroSelfAttentionP : SelfAttentionP := ⟨0, 0, zeroLin, zeroLin, zeroLin, 0⟩

def zeroSelfOutputP : SelfOutputP := ⟨zeroLin, zeroLN, 0⟩

def zeroAttentionP : AttentionP := ⟨zeroSelfAttentionP, zeroSelfOutputP⟩

def zeroLayerWoMemoryP : LayerWoMemoryP := ⟨zeroAttentionP, ⟨zeroLin⟩⟩

def zeroDecoderLayerP : DecoderLayerP := ⟨zeroAttentionP, zeroTrmFeedForwardP⟩

def zeroSenseLayerP : SenseLayerP := ⟨zeroAttentionP, zeroTrmFeedForwardP⟩

def mkTrmEncLayer (cfg : MartConfig) (w : TrmEncLayerP) : TrmEncLayerP :=
  ⟨mkRSA w.attention, mkTrmFeedForward cfg w.output⟩

/-- `TimeSeriesMoudule.__init__` (src/mart/model.py lines 739-749):
built while `cfg.hidden_size = 384`; `expand` is `Linear(384, 768)`,
`layernorm` is `nn.LayerNorm(768)` with torch's default eps `1e-5`;
the gate `z` is a raw `torch.randn` scalar. -/
def mkTimeSeriesMoudule (cfg : MartConfig) (w : TimeSeriesMouduleP) :
    TimeSeriesMouduleP :=
  { TSEncoder :=
      ⟨(List.range 2).map
          (fun i => mkTrmEncLayer cfg (w.TSEncoder.layers.getD i zeroTrmEncLayerP)),
        mkTrmFeedForward cfg w.TSEncoder.ff⟩
    expand := initLin w.expand 384 768
    layernorm := initLN 768 (1e-5)
    z := w.z }

/-- `EmbeddingsWithVideo.__init__` (src/mart/model.py lines 566-600),
called with `cfg.video_feature_size` already mutated to 384. -/
def mkEmbeddings (cfg : MartConfig) (w : EmbeddingsWithVideoP) :
    EmbeddingsWithVideoP :=
  { word_embeddings := w.word_embeddings
    word_fc_ln1 := initLN cfg.word_vec_size cfg.layer_norm_eps
    word_fc_dropout_p := cfg.hidden_dropout_prob
    word_fc_linear := initLin w.word_fc_linear cfg.word_vec_size cfg.hidden_size
    word_fc_ln2 := initLN cfg.hidden_size cfg.layer_norm_eps
    video_ln1 := initLN 384 cfg.layer_norm_eps
    video_linear := initLin w.video_linear 384 cfg.hidden_size
    video_ln2 := initLN cfg.hidden_size cfg.layer_norm_eps
    token_type_embeddings := w.token_type_embeddings
    position_n_filters := cfg.hidden_size
    LayerNorm := initLN cfg.hidden_size cfg.layer_norm_eps
    dropout_p := cfg.hidden_dropout_prob }

def mkPredictionHeadTransform (cfg : MartConfig)
    (w : PredictionHeadTransformP) : PredictionHeadTransformP :=
  ⟨initLin w.dense cfg.hidden_size cfg.hidden_size,
    initLN cfg.hidden_size cfg.layer_norm_eps⟩

/-- `LMPredictionHead.__init__` (src/mart/model.py lines 654-679): with
weight tying the final linear's weight is the word-embedding table
(out dimension = vocabulary rows); otherwise `Linear(hidden, vocab)`;
the explicit output bias starts at zeros.  (In the tied case the Python
asserts `hidden_size == embedding dim`; the assertion is a constructor
precondition not modelled here, as no claim depends on it.) -/
def mkLMPredictionHead (cfg : MartConfig) (wordEmbW : ℕ → ℕ → ℚ)
    (w : LMPredictionHeadP) : LMPredictionHeadP :=
  { transform := mkPredictionHeadTransform cfg w.transform
    decoder :=
      if cfg.share_wd_cls_weight then
        ⟨wordEmbW, fun _ => 0, cfg.word_vec_size, cfg.vocab_size⟩
      else initLin w.decoder cfg.hidden_size cfg.vocab_size
    bias := fun _ => 0 }

/-- The `pred_f` sequential's construction (src/mart/model.py lines
796-803): 384→768→384→384 with `Dropout(0.1)`. -/
def mkPredF (w : PredFP) : PredFP :=
  ⟨initLin w.l1 384 768, initLin w.l2 768 384, initLin w.l3 384 384, 1 / 10⟩

/-- The `sens_pre_mod` sequential's construction (src/mart/model.py
lines 811-822): 768→128→32→8→1 with `Dropout(0.2)`. -/
def mkSensPreMod (cfg : MartConfig) (w : SensPreModP) : SensPreModP :=
  ⟨initLin w.l1 768 128, initLN 128 cfg.layer_norm_eps,
    initLin w.l2 128 32, 1 / 5, initLin w.l3 32 8,
    initLN 8 cfg.layer_norm_eps, initLin w.l4 8 1⟩

/-- `RecursiveTransformer.__init__` (src/mart/model.py lines 762-824)
as a configuration/shape computation over an abstract weight source
`w` (weights are random draws; `init_bert_weights` zeroes biases and
sets layer norms to weight 1 / bias 0).  The transcription follows the
construction order and its config mutations: `self.cfg.vocab_size =
581` (line 766); `EmbeddingsWithVideo.__init__` sets
`cfg.video_feature_size = 384`; `TimeSeriesMoudule.__init__` sets
`cfg.hidden_size = 384` and then `768`; the encoder, sensor stack, LM
head and decoder stack are built after that with hidden size 768. -/
def mkRecursiveTransformer (cfg0 : MartConfig) (w : RecursiveTransformerP) :
    RecursiveTransformerP :=
  let cfg1 := { cfg0 with vocab_size := 581 }
  let cfg2 := { cfg1 with video_feature_size := 384 }
  let embeddings := mkEmbeddings cfg2 w.embeddings
  let cfg3 := { cfg2 with hidden_size := 384 }
  let TSModule := mkTimeSeriesMoudule cfg3 w.TSModule
  let cfg4 := { cfg3 with hidden_size := 768 }
  { cfg := cfg4
    embeddings := embeddings
    TSModule := TSModule
    encoder := (List.range cfg4.num_hidden_layers).map
      (fun i => mkLayerWoMemory cfg4 (w.encoder.getD i zeroLayerWoMemoryP))
    senstrm := (List.range 3).map
      (fun i => mkSenseLayer cfg4 (w.senstrm.getD i zeroSenseLayerP))
    decoder := mkLMPredictionHead cfg4 embeddings.word_embeddings w.decoder
    transformerdecoder := (List.range 5).map
      (fun i => mkDecoderLayer cfg4 (w.transformerdecoder.getD i zeroDecoderLayerP))
    z_f := w.z_f
    size_adjust := initLin w.size_adjust 768 384
    upsampling := initLin w.upsampling 384 768
    pred_f := mkPredF w.pred_f
    sens_pre_mod := mkSensPreMod cfg4 w.sens_pre_mod }

/-- `create_mart_model` (src/mart/model.py lines 35-80): sets
`cfg.max_position_embeddings` and `cfg.vocab_size` from the caller's
vocabulary size, then builds `RecursiveTransformer` when
`cfg.recurrent`; otherwise `model` is unbound and the function raises.
(The `use_glove` branch swaps in a pretrained embedding table of
asserted-equal shape; weights are abstract here, so it changes no
shape.) -/
def create_mart_model (cfg : MartConfig) (vocab_size : ℕ)
    (w : RecursiveTransformerP) : Except String RecursiveTransformerP :=
  let cfg2 := { cfg with
    max_position_embeddings := cfg.max_v_len + cfg.max_t_len
    vocab_size := vocab_size }
  if cfg2.recurrent then Except.ok (mkRecursiveTransformer cfg2 w)
  else Except.error "UnboundLocalError: local variable model referenced before assignment"

/-- The size of the vocabulary dimension of the logits that
`forward_step` returns: `prediction_scores = self.decoder(decoded_feat)`
is the LM head output, whose final linear has out-dimension
`cfg.vocab_size` as of construction. -/
def RecursiveTransformerP.vocabLogitDim (m : RecursiveTransformerP) : ℕ :=
  m.decoder.decoder.outDim

def zeroEmbeddingsP : EmbeddingsWithVideoP :=
  ⟨fun _ _ => 0, zeroLN, 0, zeroLin, zeroLN, zeroLN, zeroLin, zeroLN,
    fun _ _ => 0, 0, zeroLN, 0⟩

def zeroTimeSeriesMouduleP : TimeSeriesMouduleP :=
  ⟨⟨[], zeroTrmFeedForwardP⟩, zeroLin, zeroLN, 0⟩

def zeroLMPredictionHeadP : LMPredictionHeadP :=
  ⟨⟨zeroLin, zeroLN⟩, zeroLin, fun _ => 0⟩

def zeroSensPreModP : SensPreModP :=
  ⟨zeroLin, zeroLN, zeroLin, 0, zeroLin, zeroLN, zeroLin⟩

def zeroPredFP : PredFP := ⟨zeroLin, zeroLin, zeroLin, 0⟩

/-- An example configuration with `recurrent = True` and no weight
tying. -/
def exampleMartConfig : MartConfig :=
  { recurrent := true, use_glove := false, vocab_size := 300
    word_vec_size := 300, hidden_size := 768, intermediate_size := 768
    video_feature_size := 3072, type_vocab_size := 2
    num_hidden_layers := 2, num_attention_heads := 12
    max_v_len := 6, max_t_len := 25, max_position_embeddings := 0
    layer_norm_eps := 1e-12, hidden_dropout_prob := 1 / 10
    attention_probs_dropout_prob := 1 / 10, share_wd_cls_weight := false }

/-- An all-zero weight source. -/
def zeroRecursiveTransformerP : RecursiveTransformerP :=
  { cfg := exampleMartConfig
    embeddings := zeroEmbeddingsP
    TSModule := zeroTimeSeriesMouduleP
    encoder := []
    senstrm := []
    decoder := zeroLMPredictionHeadP
    transformerdecoder := []
    z_f := 0
    size_adjust := zeroLin
    upsampling := zeroLin
    pred_f := zeroPredFP
    sens_pre_mod := zeroSensPreModP }

/-- C6 counterexample: `create_mart_model` called with vocabulary size
100 yields a model whose logit vocabulary dimension is 581, not 100:
`RecursiveTransformer.__init__` overwrites `cfg.vocab_size = 581`
before building the LM head. -/
theorem create_mart_model_ignores_vocab_arg :
    (create_mart_model exampleMartConfig 100
        zeroRecursiveTransformerP).map RecursiveTransformerP.vocabLogitDim
      = Except.ok 581
    ∧ ¬ ((create_mart_model exampleMartConfig 100
        zeroRecursiveTransformerP).map RecursiveTransformerP.vocabLogitDim
      = Except.ok 100) := by
  constructor
  · rfl
  · intro h
    have h2 : (581 : ℕ) = 100 := by
      have h3 : (Except.ok 581 : Except String ℕ) = Except.ok 100 := by
        rw [← h]
        rfl
      exact Except.ok.inj h3
    omega

/-- C6 amended: for every configuration with `recurrent = True` and
every requested vocabulary size `v`, the constructed model's logit
vocabulary dimension is the hardcoded 581 — it equals the configured
`v` only when `v = 581`. -/
theorem create_mart_model_vocab_dim (cfg : MartConfig) (v : ℕ)
    (w : RecursiveTransformerP) (h : cfg.recurrent = true) :
    (create_mart_model cfg v w).map RecursiveTransformerP.vocabLogitDim
      = Except.ok 581
    ∧ (∀ m2, create_mart_model cfg v w = Except.ok m2 →
        (m2.vocabLogitDim = v ↔ v = 581)) := by
  have hok : create_mart_model cfg v w
      = Except.ok (mkRecursiveTransformer
        { cfg with
          max_position_embeddings := cfg.max_v_len + cfg.max_t_len
          vocab_size := v } w) := by
    rw [create_mart_model]
    simp [h]
  have hdim : (mkRecursiveTransformer
      { cfg with
        max_position_embeddings := cfg.max_v_len + cfg.max_t_len
        vocab_size := v } w).vocabLogitDim = 581 := by
    rw [RecursiveTransformerP.vocabLogitDim, mkRecursiveTransformer,
      mkLMPredictionHead]
    by_cases hs : cfg.share_wd_cls_weight
    · simp [hs, initLin]
    · simp [hs, initLin]
  constructor
  · rw [hok, Except.map, hdim]
  · intro m2 hm2
    rw [hok] at hm2
    have := Except.ok.inj hm2
    rw [← this, hdim]
    constructor
    · intro hv
      omega
    · intro hv
      omega

/-- Witness for C6 (amended) at the example configuration. -/
theorem create_mart_model_vocab_dim_witness :
    (create_mart_model exampleMartConfig 100
        zeroRecursiveTransformerP).map RecursiveTransformerP.vocabLogitDim
      = Except.ok 581
    ∧ (∀ m2, create_mart_model exampleMartConfig 100
          zeroRecursiveTransformerP = Except.ok m2 →
        (m2.vocabLogitDim = 100 ↔ (100 : ℕ) = 581)) :=
  create_mart_model_vocab_dim exampleMartConfig 100
    zeroRecursiveTransformerP rfl

def zeroT2 : T2 := fun _ _ => 0

def zeroT3 : T3 := fun _ _ _ => 0

def zeroIds : ℕ → ℕ → ℕ := fun _ _ => 0

/-- The mutable state a `RecursiveTransformer` instance carries between
`forward_step` calls: the position of the torch global RNG stream (ad-
vanced by every dropout draw in training mode) and the `future_rec` /
`future_gt` attributes (reset to `[]` by every call, never read). -/
structure ModelState where
  rngPos : ℕ
  future_rec : List T2
  future_gt : List T2

/-- The four values returned by `forward_step`:
`(encoded_layer_outputs, prediction_scores, future_b, sense_pre)`. -/
structure StepOut where
  encoded_layer_outputs : List T3
  prediction_scores : T3
  future_b : T2
  sense_pre : T2

/-- `RecursiveTransformer.forward_step` (src/mart/model.py lines
841-897), in source order: size-adjust the video features; reset
`future_rec`/`future_gt`; build the 3-frame clip window; predict the
future frame with `pred_f` (the first dropout, hence the first RNG
consumer) and gate frame 2 with `z_f`; run the Time Series Module; fuse
embeddings; run the encoder (`output_all_encoded_layers=False`); run
the cross-attention decoder against the clip history; concatenate the
clip triple with the clip history and run the sensor transformer;
splice the sensor features into decoder positions 24:28; regress the 4
sensor scalars; project to vocabulary logits; upsample the future
prediction.  `gt_clip` defaults from the video features and is unused
by the active code. -/
def forward_step (prim : Prim) (m : RecursiveTransformerP)
    (training : Bool) (rng : ℕ → Bool) (st : ModelState) (N L : ℕ)
    (input_ids : ℕ → ℕ → ℕ) (video_features : T3) (input_masks : T2)
    (token_type_ids : ℕ → ℕ → ℕ) (gt_clip : Option T3) :
    StepOut × ModelState :=
  let video_features2 := linear3 m.size_adjust video_features
  let clip_feats : T3 := fun n i d => video_features2 n (i + 1) d
  let fb := predF_apply m.pred_f training rng st.rngPos N
    (fun n d => video_features2 n 3 d)
  let clip_feats2 : T3 := fun n i d =>
    if i = 2 then m.z_f * clip_feats n 2 d + (1 - m.z_f) * fb.1 n d
    else clip_feats n i d
  let ts := timeSeriesMouduleF prim m.TSModule training rng fb.2 N clip_feats2
  let emb := embeddingsWithVideoF prim m.embeddings training rng ts.2 N L
    input_ids video_features2 token_type_ids
  let enc := encoderWoMemoryF prim m.encoder training rng emb.2 N L
    m.cfg.max_v_len m.cfg.max_t_len emb.1 input_masks none 1
  let dec := decoderF prim m.transformerdecoder training rng enc.2 N L
    m.cfg.max_v_len m.cfg.max_t_len enc.1 input_masks ts.1.2
  let all_clip_feats : T3 := fun n i d =>
    if i < 3 then ts.1.1 n i d else ts.1.2 n (i - 3) d
  let sens := sensorTransformerF prim m.senstrm training rng dec.2 N 4
    all_clip_feats
  let decoded_feat : T3 := fun n l d =>
    if 24 ≤ l ∧ l < 28 then sens.1 n (l - 24) d else dec.1 n l d
  let sens2 := sensPreMod_apply prim m.sens_pre_mod training rng sens.2 N 4
    sens.1
  (⟨[enc.1], lmPredictionHeadF prim m.decoder decoded_feat,
      linear2 m.upsampling fb.1, fun n j => sens2.1 n j 0⟩,
    ⟨sens2.2, [], []⟩)

theorem selfAttentionF_evalFst (prim : Prim) (p : SelfAttentionP)
    (rng : ℕ → Bool) (pos : ℕ) (N Lq L : ℕ) (query key value : T3)
    (mask : Option (ℕ → ℕ → ℕ → ℚ)) :
    (selfAttentionF prim p false rng pos N Lq L query key value mask).1
      = (selfAttentionF prim p false rng 0 N Lq L query key value mask).1 := rfl

theorem selfAttentionF_evalSnd (prim : Prim) (p : SelfAttentionP)
    (rng : ℕ → Bool) (pos : ℕ) (N Lq L : ℕ) (query key value : T3)
    (mask : Option (ℕ → ℕ → ℕ → ℚ)) :
    (selfAttentionF prim p false rng pos N Lq L query key value mask).2
      = pos := rfl

theorem selfOutputF_evalFst (prim : Prim) (p : SelfOutputP)
    (rng : ℕ → Bool) (pos : ℕ) (N Lh L : ℕ) (hidden input : T3) :
    (selfOutputF prim p false rng pos N Lh L hidden input).1
      = (selfOutputF prim p false rng 0 N Lh L hidden input).1 := rfl

theorem selfOutputF_evalSnd (prim : Prim) (p : SelfOutputP)
    (rng : ℕ → Bool) (pos : ℕ) (N Lh L : ℕ) (hidden input : T3) :
    (selfOutputF prim p false rng pos N Lh L hidden input).2 = pos := rfl

theorem attentionF_evalFst (prim : Prim) (p : AttentionP) (rng : ℕ → Bool)
    (pos : ℕ) (N L Lclip : ℕ) (x : T3) (mask : Option (ℕ → ℕ → ℕ → ℚ))
    (clip : Option T3) :
    (attentionF prim p false rng pos N L Lclip x mask clip).1
      = (attentionF prim p false rng 0 N L Lclip x mask clip).1 := by
  cases clip <;> rfl

theorem attentionF_evalSnd (prim : Prim) (p : AttentionP) (rng : ℕ → Bool)
    (pos : ℕ) (N L Lclip : ℕ) (x : T3) (mask : Option (ℕ → ℕ → ℕ → ℚ))
    (clip : Option T3) :
    (attentionF prim p false rng pos N L Lclip x mask clip).2 = pos := by
  cases clip <;> rfl

theorem trmFeedForwardF_evalFst (prim : Prim) (p : TrmFeedForwardP)
    (rng : ℕ → Bool) (pos : ℕ) (N L : ℕ) (hidden input : T3) :
    (trmFeedForwardF prim p false rng pos N L hidden input).1
      = (trmFeedForwardF prim p false rng 0 N L hidden input).1 := rfl

theorem trmFeedForwardF_evalSnd (prim : Prim) (p : TrmFeedForwardP)
    (rng : ℕ → Bool) (pos : ℕ) (N L : ℕ) (hidden input : T3) :
    (trmFeedForwardF prim p false rng pos N L hidden input).2 = pos := rfl

theorem layerWoMemoryF_evalFst (prim : Prim) (p : LayerWoMemoryP)
    (rng : ℕ → Bool) (pos : ℕ) (N L v t : ℕ) (hidden : T3) (maskv : T2)
    (clip : Option T3) (Lclip : ℕ) :
    (layerWoMemoryF prim p false rng pos N L v t hidden maskv clip Lclip).1
      = (layerWoMemoryF prim p false rng 0 N L v t hidden maskv clip Lclip).1 := by
  cases clip <;> rfl

theorem layerWoMemoryF_evalSnd (prim : Prim) (p : LayerWoMemoryP)
    (rng : ℕ → Bool) (pos : ℕ) (N L v t : ℕ) (hidden : T3) (maskv : T2)
    (clip : Option T3) (Lclip : ℕ) :
    (layerWoMemoryF prim p false rng pos N L v t hidden maskv clip Lclip).2
      = pos := by
  cases clip <;> rfl

theorem decoderLayerF_evalFst (prim : Prim) (p : DecoderLayerP)
    (rng : ℕ → Bool) (pos : ℕ) (N L v t : ℕ) (x : T3) (maskv : T2)
    (clip_his : T3) :
    (decoderLayerF prim p false rng pos N L v t x maskv clip_his).1
      = (decoderLayerF prim p false rng 0 N L v t x maskv clip_his).1 := rfl

theorem decoderLayerF_evalSnd (prim : Prim) (p : DecoderLayerP)
    (rng : ℕ → Bool) (pos : ℕ) (N L v t : ℕ) (x : T3) (maskv : T2)
    (clip_his : T3) :
    (decoderLayerF prim p false rng pos N L v t x maskv clip_his).2 = pos := rfl

theorem senseLayerF_evalFst (prim : Prim) (p : SenseLayerP)
    (rng : ℕ → Bool) (pos : ℕ) (N L Lclip : ℕ) (x : T3) (clip_his : T3) :
    (senseLayerF prim p false rng pos N L Lclip x clip_his).1
      = (senseLayerF prim p false rng 0 N L Lclip x clip_his).1 := rfl

theorem senseLayerF_evalSnd (prim : Prim) (p : SenseLayerP)
    (rng : ℕ → Bool) (pos : ℕ) (N L Lclip : ℕ) (x : T3) (clip_his : T3) :
    (senseLayerF prim p false rng pos N L Lclip x clip_his).2 = pos := rfl

theorem trmEncLayerF_evalFst (prim : Prim) (p : TrmEncLayerP)
    (rng : ℕ → Bool) (pos : ℕ) (N : ℕ) (x : T3) :
    (trmEncLayerF prim p false rng pos N x).1
      = (trmEncLayerF prim p false rng 0 N x).1 := rfl

theorem trmEncLayerF_evalSnd (prim : Prim) (p : TrmEncLayerP)
    (rng : ℕ → Bool) (pos : ℕ) (N : ℕ) (x : T3) :
    (trmEncLayerF prim p false rng pos N x).2 = pos := rfl

theorem embeddingsWithVideoF_evalFst (prim : Prim)
    (p : EmbeddingsWithVideoP) (rng : ℕ → Bool) (pos : ℕ) (N L : ℕ)
    (ids : ℕ → ℕ → ℕ) (vf : T3) (tt : ℕ → ℕ → ℕ) :
    (embeddingsWithVideoF prim p false rng pos N L ids vf tt).1
      = (embeddingsWithVideoF prim p false rng 0 N L ids vf tt).1 := rfl

theorem embeddingsWithVideoF_evalSnd (prim : Prim)
    (p : EmbeddingsWithVideoP) (rng : ℕ → Bool) (pos : ℕ) (N L : ℕ)
    (ids : ℕ → ℕ → ℕ) (vf : T3) (tt : ℕ → ℕ → ℕ) :
    (embeddingsWithVideoF prim p false rng pos N L ids vf tt).2 = pos := rfl

theorem predF_apply_evalFst (p : PredFP) (rng : ℕ → Bool) (pos : ℕ)
    (N : ℕ) (x : T2) :
    (predF_apply p false rng pos N x).1
      = (predF_apply p false rng 0 N x).1 := rfl

theorem predF_apply_evalSnd (p : PredFP) (rng : ℕ → Bool) (pos : ℕ)
    (N : ℕ) (x : T2) :
    (predF_apply p false rng pos N x).2 = pos := rfl

theorem sensPreMod_apply_evalFst (prim : Prim) (p : SensPreModP)
    (rng : ℕ → Bool) (pos : ℕ) (N L : ℕ) (x : T3) :
    (sensPreMod_apply prim p false rng pos N L x).1
      = (sensPreMod_apply prim p false rng 0 N L x).1 := rfl

theorem sensPreMod_apply_evalSnd (prim : Prim) (p : SensPreModP)
    (rng : ℕ → Bool) (pos : ℕ) (N L : ℕ) (x : T3) :
    (sensPreMod_apply prim p false rng pos N L x).2 = pos := rfl

theorem encoderWoMemoryF_evalP (prim : Prim) (rng : ℕ → Bool)
    (N L v t : ℕ) (maskv : T2) (clip : Option T3) (Lclip : ℕ) :
    ∀ (layers : List LayerWoMemoryP) (pos : ℕ) (hidden : T3),
      encoderWoMemoryF prim layers false rng pos N L v t hidden maskv clip Lclip
        = ((encoderWoMemoryF prim layers false rng 0 N L v t hidden maskv
            clip Lclip).1, pos)
  | [], pos, hidden => rfl
  | lp :: ls, pos, hidden => by
    have h1 : encoderWoMemoryF prim (lp :: ls) false rng pos N L v t hidden
        maskv clip Lclip
        = encoderWoMemoryF prim ls false rng
          ((layerWoMemoryF prim lp false rng pos N L v t hidden maskv clip
            Lclip).2) N L v t
          ((layerWoMemoryF prim lp false rng pos N L v t hidden maskv clip
            Lclip).1) maskv clip Lclip := rfl
    have h2 : encoderWoMemoryF prim (lp :: ls) false rng 0 N L v t hidden
        maskv clip Lclip
        = encoderWoMemoryF prim ls false rng
          ((layerWoMemoryF prim lp false rng 0 N L v t hidden maskv clip
            Lclip).2) N L v t
          ((layerWoMemoryF prim lp false rng 0 N L v t hidden maskv clip
            Lclip).1) maskv clip Lclip := rfl
    rw [h1, layerWoMemoryF_evalSnd, layerWoMemoryF_evalFst,
      encoderWoMemoryF_evalP prim rng N L v t maskv clip Lclip ls pos,
      h2, layerWoMemoryF_evalSnd]

theorem encoderWoMemoryF_evalFst (prim : Prim) (layers : List LayerWoMemoryP)
    (rng : ℕ → Bool) (pos : ℕ) (N L v t : ℕ) (hidden : T3) (maskv : T2)
    (clip : Option T3) (Lclip : ℕ) :
    (encoderWoMemoryF prim layers false rng pos N L v t hidden maskv clip
        Lclip).1
      = (encoderWoMemoryF prim layers false rng 0 N L v t hidden maskv clip
        Lclip).1 := by
  rw [encoderWoMemoryF_evalP]

theorem encoderWoMemoryF_evalSnd (prim : Prim) (layers : List LayerWoMemoryP)
    (rng : ℕ → Bool) (pos : ℕ) (N L v t : ℕ) (hidden : T3) (maskv : T2)
    (clip : Option T3) (Lclip : ℕ) :
    (encoderWoMemoryF prim layers false rng pos N L v t hidden maskv clip
        Lclip).2 = pos := by
  rw [encoderWoMemoryF_evalP]

theorem decoderF_evalP (prim : Prim) (rng : ℕ → Bool) (N L v t : ℕ)
    (maskv : T2) (clip_his : T3) :
    ∀ (layers : List DecoderLayerP) (pos : ℕ) (x : T3),
      decoderF prim layers false rng pos N L v t x maskv clip_his
        = ((decoderF prim layers false rng 0 N L v t x maskv clip_his).1, pos)
  | [], pos, x => rfl
  | lp :: ls, pos, x => by
    have h1 : decoderF prim (lp :: ls) false rng pos N L v t x maskv clip_his
        = decoderF prim ls false rng
          ((decoderLayerF prim lp false rng pos N L v t x maskv clip_his).2)
          N L v t
          ((decoderLayerF prim lp false rng pos N L v t x maskv clip_his).1)
          maskv clip_his := rfl
    have h2 : decoderF prim (lp :: ls) false rng 0 N L v t x maskv clip_his
        = decoderF prim ls false rng
          ((decoderLayerF prim lp false rng 0 N L v t x maskv clip_his).2)
          N L v t
          ((decoderLayerF prim lp false rng 0 N L v t x maskv clip_his).1)
          maskv clip_his := rfl
    rw [h1, decoderLayerF_evalSnd, decoderLayerF_evalFst,
      decoderF_evalP prim rng N L v t maskv clip_his ls pos,
      h2, decoderLayerF_evalSnd]

theorem decoderF_evalFst (prim : Prim) (layers : List DecoderLayerP)
    (rng : ℕ → Bool) (pos : ℕ) (N L v t : ℕ) (x : T3) (maskv : T2)
    (clip_his : T3) :
    (decoderF prim layers false rng pos N L v t x maskv clip_his).1
      = (decoderF prim layers false rng 0 N L v t x maskv clip_his).1 := by
  rw [decoderF_evalP]

theorem decoderF_evalSnd (prim : Prim) (layers : List DecoderLayerP)
    (rng : ℕ → Bool) (pos : ℕ) (N L v t : ℕ) (x : T3) (maskv : T2)
    (clip_his : T3) :
    (decoderF prim layers false rng pos N L v t x maskv clip_his).2 = pos := by
  rw [decoderF_evalP]

theorem sensorTransformerF_evalP (prim : Prim) (rng : ℕ → Bool) (N L : ℕ) :
    ∀ (layers : List SenseLayerP) (pos : ℕ) (hidden : T3),
      sensorTransformerF prim layers false rng pos N L hidden
        = ((sensorTransformerF prim layers false rng 0 N L hidden).1, pos)
  | [], pos, hidden => rfl
  | lp :: ls, pos, hidden => by
    have h1 : sensorTransformerF prim (lp :: ls) false rng pos N L hidden
        = sensorTransformerF prim ls false rng
          ((senseLayerF prim lp false rng pos N L L hidden hidden).2) N L
          ((senseLayerF prim lp false rng pos N L L hidden hidden).1) := rfl
    have h2 : sensorTransformerF prim (lp :: ls) false rng 0 N L hidden
        = sensorTransformerF prim ls false rng
          ((senseLayerF prim lp false rng 0 N L L hidden hidden).2) N L
          ((senseLayerF prim lp false rng 0 N L L hidden hidden).1) := rfl
    rw [h1, senseLayerF_evalSnd, senseLayerF_evalFst,
      sensorTransformerF_evalP prim rng N L ls pos, h2, senseLayerF_evalSnd]

theorem sensorTransformerF_evalFst (prim : Prim) (layers : List SenseLayerP)
    (rng : ℕ → Bool) (pos : ℕ) (N L : ℕ) (hidden : T3) :
    (sensorTransformerF prim layers false rng pos N L hidden).1
      = (sensorTransformerF prim layers false rng 0 N L hidden).1 := by
  rw [sensorTransformerF_evalP]

theorem sensorTransformerF_evalSnd (prim : Prim) (layers : List SenseLayerP)
    (rng : ℕ → Bool) (pos : ℕ) (N L : ℕ) (hidden : T3) :
    (sensorTransformerF prim layers false rng pos N L hidden).2 = pos := by
  rw [sensorTransformerF_evalP]

theorem tsLayersFold_evalP (prim : Prim) (rng : ℕ → Bool) (N : ℕ) :
    ∀ (layers : List TrmEncLayerP) (pos : ℕ) (x : T3),
      layers.foldl (fun acc lp => trmEncLayerF prim lp false rng acc.2 N acc.1)
          (x, pos)
        = ((layers.foldl
            (fun acc lp => trmEncLayerF prim lp false rng acc.2 N acc.1)
            (x, 0)).1, pos)
  | [], pos, x => rfl
  | lp :: ls, pos, x => by
    have h1 : (lp :: ls).foldl
        (fun acc lp => trmEncLayerF prim lp false rng acc.2 N acc.1) (x, pos)
        = ls.foldl (fun acc lp => trmEncLayerF prim lp false rng acc.2 N acc.1)
          ((trmEncLayerF prim lp false rng pos N x).1,
            (trmEncLayerF prim lp false rng pos N x).2) := rfl
    have h2 : (lp :: ls).foldl
        (fun acc lp => trmEncLayerF prim lp false rng acc.2 N acc.1) (x, 0)
        = ls.foldl (fun acc lp => trmEncLayerF prim lp false rng acc.2 N acc.1)
          ((trmEncLayerF prim lp false rng 0 N x).1,
            (trmEncLayerF prim lp false rng 0 N x).2) := rfl
    rw [h1, trmEncLayerF_evalSnd, trmEncLayerF_evalFst,
      tsLayersFold_evalP prim rng N ls pos, h2, trmEncLayerF_evalSnd]

theorem timeSeriesEncoderF_evalP (prim : Prim) (p : TimeSeriesEncoderP)
    (rng : ℕ → Bool) (pos : ℕ) (N : ℕ) (x : T3) :
    timeSeriesEncoderF prim p false rng pos N x
      = ((timeSeriesEncoderF prim p false rng 0 N x).1, pos) := by
  have h1 : timeSeriesEncoderF prim p false rng pos N x
      = trmFeedForwardF prim p.ff false rng
        ((p.layers.foldl
          (fun acc lp => trmEncLayerF prim lp false rng acc.2 N acc.1)
          (positionEncoding3 prim 384 x, pos)).2) N 3
        ((p.layers.foldl
          (fun acc lp => trmEncLayerF prim lp false rng acc.2 N acc.1)
          (positionEncoding3 prim 384 x, pos)).1)
        ((p.layers.foldl
          (fun acc lp => trmEncLayerF prim lp false rng acc.2 N acc.1)
          (positionEncoding3 prim 384 x, pos)).1) := rfl
  have h2 : timeSeriesEncoderF prim p false rng 0 N x
      = trmFeedForwardF prim p.ff false rng
        ((p.layers.foldl
          (fun acc lp => trmEncLayerF prim lp false rng acc.2 N acc.1)
          (positionEncoding3 prim 384 x, 0)).2) N 3
        ((p.layers.foldl
          (fun acc lp => trmEncLayerF prim lp false rng acc.2 N acc.1)
          (positionEncoding3 prim 384 x, 0)).1)
        ((p.layers.foldl
          (fun acc lp => trmEncLayerF prim lp false rng acc.2 N acc.1)
          (positionEncoding3 prim 384 x, 0)).1) := rfl
  rw [h1, h2, tsLayersFold_evalP prim rng N p.layers pos]
  rfl

theorem timeSeriesEncoderF_evalFst (prim : Prim) (p : TimeSeriesEncoderP)
    (rng : ℕ → Bool) (pos : ℕ) (N : ℕ) (x : T3) :
    (timeSeriesEncoderF prim p false rng pos N x).1
      = (timeSeriesEncoderF prim p false rng 0 N x).1 := by
  rw [timeSeriesEncoderF_evalP]

theorem timeSeriesEncoderF_evalSnd (prim : Prim) (p : TimeSeriesEncoderP)
    (rng : ℕ → Bool) (pos : ℕ) (N : ℕ) (x : T3) :
    (timeSeriesEncoderF prim p false rng pos N x).2 = pos := by
  rw [timeSeriesEncoderF_evalP]

theorem timeSeriesMouduleF_evalFst (prim : Prim) (p : TimeSeriesMouduleP)
    (rng : ℕ → Bool) (pos : ℕ) (N : ℕ) (x : T3) :
    (timeSeriesMouduleF prim p false rng pos N x).1
      = (timeSeriesMouduleF prim p false rng 0 N x).1 := by
  simp only [timeSeriesMouduleF, timeSeriesEncoderF_evalFst]

theorem timeSeriesMouduleF_evalSnd (prim : Prim) (p : TimeSeriesMouduleP)
    (rng : ℕ → Bool) (pos : ℕ) (N : ℕ) (x : T3) :
    (timeSeriesMouduleF prim p false rng pos N x).2 = pos := by
  simp only [timeSeriesMouduleF, timeSeriesEncoderF_evalSnd]

theorem forward_step_evalFst (prim : Prim) (m : RecursiveTransformerP)
    (rng : ℕ → Bool) (st st' : ModelState) (N L : ℕ)
    (input_ids : ℕ → ℕ → ℕ) (video_features : T3) (input_masks : T2)
    (token_type_ids : ℕ → ℕ → ℕ) (gt_clip : Option T3) :
    (forward_step prim m false rng st N L input_ids video_features
        input_masks token_type_ids gt_clip).1
      = (forward_step prim m false rng st' N L input_ids video_features
        input_masks token_type_ids gt_clip).1 := by
  simp only [forward_step, predF_apply_evalFst, predF_apply_evalSnd,
    timeSeriesMouduleF_evalFst, timeSeriesMouduleF_evalSnd,
    embeddingsWithVideoF_evalFst, embeddingsWithVideoF_evalSnd,
    encoderWoMemoryF_evalFst, encoderWoMemoryF_evalSnd,
    decoderF_evalFst, decoderF_evalSnd,
    sensorTransformerF_evalFst, sensorTransformerF_evalSnd,
    sensPreMod_apply_evalFst, sensPreMod_apply_evalSnd]

theorem forward_step_evalSnd (prim : Prim) (m : RecursiveTransformerP)
    (rng : ℕ → Bool) (st : ModelState) (N L : ℕ)
    (input_ids : ℕ → ℕ → ℕ) (video_features : T3) (input_masks : T2)
    (token_type_ids : ℕ → ℕ → ℕ) (gt_clip : Option T3) :
    (forward_step prim m false rng st N L input_ids video_features
        input_masks token_type_ids gt_clip).2
      = ⟨st.rngPos, [], []⟩ := by
  simp only [forward_step, predF_apply_evalSnd, timeSeriesMouduleF_evalSnd,
    embeddingsWithVideoF_evalSnd, encoderWoMemoryF_evalSnd, decoderF_evalSnd,
    sensorTransformerF_evalSnd, sensPreMod_apply_evalSnd]

/-- Transcendental oracle for concrete evaluation; the `future_b` data
path of `forward_step` never applies any of these. -/
def prim0 : Prim := ⟨id, id, id, id, id, id⟩

/-- A 1-dimensional linear layer with unit weight and zero bias. -/
def lin00 : LinParams := ⟨fun _ _ => 1, fun _ => 0, 1, 1⟩

/-- A 1-dimensional layer norm (γ = 1, β = 0, ε = 1). -/
def ln1q : LNParams := ⟨fun _ => 1, fun _ => 0, 1, 1⟩

/-- A 1-dimensional feed-forward block with zero dropout. -/
def ff0 : TrmFeedForwardP := ⟨lin00, lin00, ln1q, 0⟩

/-- A minimal configuration (only `max_v_len`/`max_t_len` reach
`forward_step`, and with empty layer stacks even those are inert). -/
def cfg0 : MartConfig :=
  ⟨false, false, 1, 1, 1, 1, 1, 1, 0, 1, 1, 1, 1, 0, 0, 0, false⟩

/-- A minimal `RecursiveTransformer` parameterisation: empty
encoder/decoder/sensor stacks, 1-dimensional linears, and `pred_f`
carrying the source's `Dropout(0.1)`. -/
def model0 : RecursiveTransformerP :=
  ⟨cfg0,
    ⟨fun _ _ => 0, ln1q, 0, lin00, ln1q, ln1q, lin00, ln1q, fun _ _ => 0, 1,
      ln1q, 0⟩,
    ⟨⟨[], ff0⟩, lin00, ln1q, 0⟩,
    [], [],
    ⟨⟨lin00, ln1q⟩, lin00, fun _ => 0⟩,
    [],
    0, lin00, lin00,
    ⟨lin00, lin00, lin00, 1/10⟩,
    ⟨lin00, ln1q, lin00, 0, lin00, ln1q, lin00⟩⟩

/-- A Bernoulli stream whose only `true` (drop) draw is the very first
position of the process-global stream. -/
def rng0 : ℕ → Bool := fun n => n = 0

/-- All-ones video features. -/
def onesT3 : T3 := fun _ _ _ => 1

/-- All-ones validity mask. -/
def onesT2 : T2 := fun _ _ => 1

/-- **C9** (amended): in evaluation mode `forward_step` is stateless in
the observable sense the spec intends: for every model, every RNG
stream, every starting state and every fixed segment input, calling it
a second time (threading the state the first call returned) yields
exactly the same four outputs as the first call, and the process-global
RNG position is left unchanged.  (In training mode the claim fails: the
dropout layers advance torch's global RNG state, see the
counterexample.) -/
theorem forward_step_eval_idempotent (prim : Prim)
    (m : RecursiveTransformerP) (rng : ℕ → Bool) (st : ModelState)
    (N L : ℕ) (input_ids : ℕ → ℕ → ℕ) (video_features : T3)
    (input_masks : T2) (token_type_ids : ℕ → ℕ → ℕ)
    (gt_clip : Option T3) :
    (forward_step prim m false rng
        (forward_step prim m false rng st N L input_ids video_features
          input_masks token_type_ids gt_clip).2
        N L input_ids video_features input_masks token_type_ids gt_clip).1
      = (forward_step prim m false rng st N L input_ids video_features
          input_masks token_type_ids gt_clip).1
    ∧ (forward_step prim m false rng st N L input_ids video_features
        input_masks token_type_ids gt_clip).2.rngPos = st.rngPos := by
  refine ⟨forward_step_evalFst prim m rng _ st N L input_ids video_features
    input_masks token_type_ids gt_clip, ?_⟩
  rw [forward_step_evalSnd]

/-- **C9**: the claim as stated is false for the training-mode
`forward_step`: every `nn.Dropout` advances torch's process-global RNG
state, so a second call with identical inputs draws a different mask.
With `pred_f`'s `Dropout(0.1)` as first consumer and a stream whose
only drop is the first draw, the first call zeroes the future-feature
reconstruction while the second call (starting at RNG position 10)
keeps and rescales it: `future_b` is `0` versus `10/9`. -/
theorem forward_step_training_not_idempotent :
    ¬ ((forward_step prim0 model0 true rng0
          (forward_step prim0 model0 true rng0 ⟨0, [], []⟩ 1 1 zeroIds
            onesT3 onesT2 zeroIds none).2
          1 1 zeroIds onesT3 onesT2 zeroIds none).1.future_b 0 0
        = (forward_step prim0 model0 true rng0 ⟨0, [], []⟩ 1 1 zeroIds
            onesT3 onesT2 zeroIds none).1.future_b 0 0) := by
  have hstate : (forward_step prim0 model0 true rng0 ⟨0, [], []⟩ 1 1 zeroIds
      onesT3 onesT2 zeroIds none).2 = ⟨10, [], []⟩ := rfl
  have hB : (forward_step prim0 model0 true rng0 ⟨0, [], []⟩ 1 1 zeroIds
      onesT3 onesT2 zeroIds none).1.future_b 0 0 = 0 := by
    norm_num [forward_step, predF_apply, linear2, linear3, linW, dropout2,
      dropoutVal, relu2, rng0, model0, lin00, onesT3, Finset.sum_range_one]
  have hA : (forward_step prim0 model0 true rng0 ⟨10, [], []⟩ 1 1 zeroIds
      onesT3 onesT2 zeroIds none).1.future_b 0 0 = 10 / 9 := by
    norm_num [forward_step, predF_apply, linear2, linear3, linW, dropout2,
      dropoutVal, relu2, rng0, model0, lin00, onesT3, Finset.sum_range_one]
  rw [hstate, hA, hB]
  norm_num

/-- One segment of the input lists that `RecursiveTransformer.forward`
(src/mart/model.py lines 901-1018) receives: token ids, video features,
validity masks, token type ids and gold labels (with `-1` on ignored
positions). -/
structure SegIn where
  input_ids : ℕ → ℕ → ℕ
  video_features : T3
  input_masks : T2
  token_type_ids : ℕ → ℕ → ℕ
  input_labels : ℕ → ℕ → ℤ

/-- Default segment (used only for out-of-range `getD` indexing, which
the in-range loop never hits). -/
def defaultSegIn : SegIn :=
  ⟨fun _ _ => 0, fun _ _ _ => 0, fun _ _ => 0, fun _ _ => 0, fun _ _ => 0⟩

/-- Default step output for out-of-range `getD` indexing. -/
def defaultStepOut : StepOut :=
  ⟨[], fun _ _ _ => 0, fun _ _ => 0, fun _ _ => 0⟩

/-- Row-major flattening `view(-1, V)` of a `(N, L, V)` score tensor:
flat row `r` is batch `r / L`, position `r % L`. -/
def flat2 (L : ℕ) (x : T3) : T2 := fun r j => x (r / L) (r % L) j

/-- Row-major flattening `view(-1)` of a `(N, L)` label tensor. -/
def flatLab (L : ℕ) (lab : ℕ → ℕ → ℤ) : ℕ → ℤ := fun r => lab (r / L) (r % L)

/-- `nn.CrossEntropyLoss(ignore_index=-1)` on `R` flattened rows over a
`V`-way vocabulary: mean over rows whose label is not `-1` of
`log Σ_j exp score(j) - score(label)`. -/
def crossEntropyLoss (prim : Prim) (V R : ℕ) (scores : T2)
    (labels : ℕ → ℤ) : ℚ :=
  (∑ r in (Finset.range R).filter (fun r => labels r ≠ -1),
      (prim.log (∑ j in Finset.range V, prim.exp (scores r j))
        - scores r (labels r).toNat))
    / ((Finset.range R).filter (fun r => labels r ≠ -1)).card

/-- `nn.MSELoss()` (mean reduction) on `(N, D)` tensors. -/
def mseLoss2 (N D : ℕ) (a b : T2) : ℚ :=
  (∑ n in Finset.range N, ∑ d in Finset.range D, (a n d - b n d) ^ 2)
    / (N * D)

/-- One sensor-channel `nn.MSELoss()`: column `j` of the `(N, 4, 1)`
reshaped prediction against the mean/std-normalised ground truth. -/
def sensorMSE (N j : ℕ) (pre gt : T2) (mean std : ℚ) : ℚ :=
  (∑ n in Finset.range N, (pre n j - (gt n j - mean) / std) ^ 2) / N

/-- Fixed constant from src/mart/model.py line 970. -/
def speed_std : ℚ := 6943259466752163 / 1000000000000000

/-- Fixed constant from src/mart/model.py line 971. -/
def acc_std : ℚ := 10128755278649304 / 10000000000000000

/-- Fixed constant from src/mart/model.py line 972. -/
def crs_std : ℚ := 10543048660106768 / 100000000000000

/-- Fixed constant from src/mart/model.py line 974. -/
def speed_mean : ℚ := 6592310560518758 / 1000000000000000

/-- Fixed constant from src/mart/model.py line 975. -/
def acc_mean : ℚ := -32466484184198605 / 1000000000000000000

/-- Fixed constant from src/mart/model.py line 976. -/
def crs_mean : ℚ := 17907880361238463 / 100000000000000

/-- Fixed constant from src/mart/model.py line 978. -/
def crs_vel_mean : ℚ := 10629827308128925 / 100000000000000000

/-- Fixed constant from src/mart/model.py line 979. -/
def crs_vel_std : ℚ := 7364545291989854 / 1000000000000000

/-- The first loop of `forward` (src/mart/model.py lines 931-944): one
`forward_step` per segment with the RNG state threaded through, the
step outputs collected in order. -/
def stepOuts (prim : Prim) (m : RecursiveTransformerP) (training : Bool)
    (rng : ℕ → Bool) (st : ModelState) (N L : ℕ) (segs : List SegIn) :
    List StepOut × ModelState :=
  segs.foldl (fun acc seg =>
    (acc.1 ++ [(forward_step prim m training rng acc.2 N L seg.input_ids
        seg.video_features seg.input_masks seg.token_type_ids none).1],
      (forward_step prim m training rng acc.2 N L seg.input_ids
        seg.video_features seg.input_masks seg.token_type_ids none).2))
    ([], st)

/-- `RecursiveTransformer.forward` (src/mart/model.py lines 901-1018).
With `gt_clip = None` and at least one segment, the first loop's 3-name
unpacking of the 4-tuple returned by `forward_step` raises; with
`gt_sens = None` and at least one segment the loss loop's
`gt_sens[idx] = ...` subscripts `None` and raises; with zero segments
the final `caption_loss /= step_size` divides by zero.  Otherwise the
loss loop accumulates
`0.9 * snt_loss + fut_loss + 0.05 * sens_loss` per segment (line 1014),
divides by the segment count (line 1017), and the per-segment
vocabulary logits are returned alongside. -/
def forward (prim : Prim) (m : RecursiveTransformerP) (training : Bool)
    (rng : ℕ → Bool) (st : ModelState) (N L : ℕ) (segs : List SegIn)
    (gt_clip : Option (ℕ → T2)) (gt_sens : Option (ℕ → T2)) :
    Except String (ℚ × List T3) :=
  match gt_clip with
  | none =>
    if segs.length = 0 then
      Except.error "ZeroDivisionError: float division by zero"
    else Except.error "ValueError: too many values to unpack (expected 3)"
  | some gtc =>
    let outs := (stepOuts prim m training rng st N L segs).1
    match gt_sens with
    | none =>
      if segs.length = 0 then
        Except.error "ZeroDivisionError: float division by zero"
      else Except.error "TypeError: NoneType object is not subscriptable"
    | some gts =>
      if segs.length = 0 then
        Except.error "ZeroDivisionError: float division by zero"
      else
        Except.ok
          (((List.range segs.length).foldl (fun acc idx =>
              acc + (0.9 * crossEntropyLoss prim m.cfg.vocab_size (N * L)
                  (flat2 L (outs.getD idx defaultStepOut).prediction_scores)
                  (flatLab L (segs.getD idx defaultSegIn).input_labels)
                + mseLoss2 N 768 (outs.getD idx defaultStepOut).future_b
                  (gtc idx)
                + 0.05 * (sensorMSE N 0 (outs.getD idx defaultStepOut).sense_pre
                    (gts idx) speed_mean speed_std
                  + sensorMSE N 1 (outs.getD idx defaultStepOut).sense_pre
                    (gts idx) acc_mean acc_std
                  + sensorMSE N 2 (outs.getD idx defaultStepOut).sense_pre
                    (gts idx) crs_mean crs_std
                  + sensorMSE N 3 (outs.getD idx defaultStepOut).sense_pre
                    (gts idx) crs_vel_mean crs_vel_std))) 0)
            / segs.length,
            outs.map StepOut.prediction_scores)

theorem foldl_add_range (f : ℕ → ℚ) (S : ℕ) :
    (List.range S).foldl (fun acc idx => acc + f idx) 0
      = ∑ idx in Finset.range S, f idx := by
  induction S with
  | zero => simp
  | succ n ih =>
    rw [List.range_succ, List.foldl_append, ih, Finset.sum_range_succ]
    simp

/-- **C2**: for every training forward call over `S ≥ 1` segments with
both `gt_clip` and `gt_sens` provided, `forward` returns `1/S` times
the sum over segments of `0.9 ·` cross-entropy (ignore index `-1`) of
the flattened vocabulary logits against the flattened gold labels,
plus the MSE of the future-feature reconstruction against its ground
truth, plus `0.05 ·` the sum of the four sensor MSE terms (each against
the ground truth normalised by that quantity's fixed mean/std pair),
together with the list of per-segment vocabulary logits. -/
theorem forward_loss_formula (prim : Prim) (m : RecursiveTransformerP)
    (training : Bool) (rng : ℕ → Bool) (st : ModelState) (N L : ℕ)
    (segs : List SegIn) (gtc gts : ℕ → T2) (h : 1 ≤ segs.length) :
    forward prim m training rng st N L segs (some gtc) (some gts)
      = Except.ok
        ((1 / (segs.length : ℚ)) * ∑ idx in Finset.range segs.length,
            (0.9 * crossEntropyLoss prim m.cfg.vocab_size (N * L)
                (flat2 L ((stepOuts prim m training rng st N L segs).1.getD
                  idx defaultStepOut).prediction_scores)
                (flatLab L (segs.getD idx defaultSegIn).input_labels)
              + mseLoss2 N 768 ((stepOuts prim m training rng st N L
                  segs).1.getD idx defaultStepOut).future_b (gtc idx)
              + 0.05 * (sensorMSE N 0 ((stepOuts prim m training rng st N L
                    segs).1.getD idx defaultStepOut).sense_pre
                  (gts idx) speed_mean speed_std
                + sensorMSE N 1 ((stepOuts prim m training rng st N L
                    segs).1.getD idx defaultStepOut).sense_pre
                  (gts idx) acc_mean acc_std
                + sensorMSE N 2 ((stepOuts prim m training rng st N L
                    segs).1.getD idx defaultStepOut).sense_pre
                  (gts idx) crs_mean crs_std
                + sensorMSE N 3 ((stepOuts prim m training rng st N L
                    segs).1.getD idx defaultStepOut).sense_pre
                  (gts idx) crs_vel_mean crs_vel_std)),
          (stepOuts prim m training rng st N L segs).1.map
            StepOut.prediction_scores) := by
  have hne : segs.length ≠ 0 := by omega
  simp only [forward]
  rw [if_neg hne, foldl_add_range, one_div_mul_eq_div]

theorem forward_loss_formula_witness :
    1 ≤ ([defaultSegIn] : List SegIn).length
    ∧ forward prim0 model0 false rng0 ⟨0, [], []⟩ 1 1 [defaultSegIn]
        (some fun _ _ _ => 0) (some fun _ _ _ => 0)
      = Except.ok
        ((1 / (([defaultSegIn] : List SegIn).length : ℚ))
            * ∑ idx in Finset.range ([defaultSegIn] : List SegIn).length,
            (0.9 * crossEntropyLoss prim0 model0.cfg.vocab_size (1 * 1)
                (flat2 1 ((stepOuts prim0 model0 false rng0 ⟨0, [], []⟩ 1 1
                  [defaultSegIn]).1.getD idx defaultStepOut).prediction_scores)
                (flatLab 1 (([defaultSegIn] : List SegIn).getD idx
                  defaultSegIn).input_labels)
              + mseLoss2 1 768 ((stepOuts prim0 model0 false rng0 ⟨0, [], []⟩
                  1 1 [defaultSegIn]).1.getD idx defaultStepOut).future_b
                (fun _ _ => 0)
              + 0.05 * (sensorMSE 1 0 ((stepOuts prim0 model0 false rng0
                    ⟨0, [], []⟩ 1 1 [defaultSegIn]).1.getD idx
                    defaultStepOut).sense_pre (fun _ _ => 0)
                  speed_mean speed_std
                + sensorMSE 1 1 ((stepOuts prim0 model0 false rng0
                    ⟨0, [], []⟩ 1 1 [defaultSegIn]).1.getD idx
                    defaultStepOut).sense_pre (fun _ _ => 0)
                  acc_mean acc_std
                + sensorMSE 1 2 ((stepOuts prim0 model0 false rng0
                    ⟨0, [], []⟩ 1 1 [defaultSegIn]).1.getD idx
                    defaultStepOut).sense_pre (fun _ _ => 0)
                  crs_mean crs_std
                + sensorMSE 1 3 ((stepOuts prim0 model0 false rng0
                    ⟨0, [], []⟩ 1 1 [defaultSegIn]).1.getD idx
                    defaultStepOut).sense_pre (fun _ _ => 0)
                  crs_vel_mean crs_vel_std)),
          (stepOuts prim0 model0 false rng0 ⟨0, [], []⟩ 1 1
            [defaultSegIn]).1.map StepOut.prediction_scores) :=
  ⟨by decide, forward_loss_formula prim0 model0 false rng0 ⟨0, [], []⟩ 1 1
    [defaultSegIn] (fun _ _ _ => 0) (fun _ _ _ => 0) (by decide)⟩

/-- **C10**: for every call of `forward` with at least one segment and
`gt_clip = None` (whatever `gt_sens` is), the call raises before any
loss is returned: the `gt_clip`-absent branch unpacks the 4-tuple
returned by `forward_step` into 3 names, a `ValueError`. -/
theorem forward_gt_clip_none_raises (prim : Prim)
    (m : RecursiveTransformerP) (training : Bool) (rng : ℕ → Bool)
    (st : ModelState) (N L : ℕ) (segs : List SegIn)
    (gt_sens : Option (ℕ → T2)) (h : 1 ≤ segs.length) :
    forward prim m training rng st N L segs none gt_sens
      = Except.error "ValueError: too many values to unpack (expected 3)" := by
  have hne : segs.length ≠ 0 := by omega
  simp only [forward]
  rw [if_neg hne]

theorem forward_gt_clip_none_raises_witness :
    1 ≤ ([defaultSegIn] : List SegIn).length
    ∧ forward prim0 model0 false rng0 ⟨0, [], []⟩ 1 1 [defaultSegIn] none none
      = Except.error "ValueError: too many values to unpack (expected 3)" :=
  ⟨by decide, forward_gt_clip_none_raises prim0 model0 false rng0 ⟨0, [], []⟩
    1 1 [defaultSegIn] none (by decide)⟩
